import Mathlib

/-!
Shallow embedding of the llm-osd daemon core (kennykguo/llm-osd):
protocol types and validator from llm-os-common/src/lib.rs, the policy
engine from llm-osd/src/policy.rs, file and exec action handlers from
llm-osd/src/actions/{files,exec}.rs, dispatch and the connection loop
from llm-osd/src/server.rs, and the redacting audit writer from
llm-osd/src/audit.rs.  Rust machine integers are modelled as Nat/Int
(no arithmetic here ever nears overflow bounds), fallible code returns
Except/Option, and the daemon's effects (filesystem, subprocesses,
audit log) are threaded through an explicit World state.
-/

namespace LlmOsd

/-! ## String primitives

Rust's `str::trim`, `starts_with`, byte length and `/`-splitting are
re-implemented structurally over the character list so that every
definition evaluates by kernel reduction (the corresponding core `String`
functions are well-founded recursive and do not).  `str_trim` uses
`Char.isWhitespace` (space, tab, CR, LF); Rust trims the full Unicode
White_Space set, a difference immaterial to every property proved here. -/

def str_trim (s : String) : String :=
  ⟨((s.data.dropWhile Char.isWhitespace).reverse.dropWhile Char.isWhitespace).reverse⟩

/-- UTF-8 byte length, modelling Rust `str::len` / `as_bytes().len()`. -/
def str_byte_len (s : String) : Nat :=
  s.data.foldl (fun n c => n + c.utf8Size) 0

def starts_with_chars : List Char → List Char → Bool
  | _, [] => true
  | [], _ :: _ => false
  | c :: cs, p :: ps => c == p && starts_with_chars cs ps

def str_starts_with (s pat : String) : Bool :=
  starts_with_chars s.data pat.data

/-- Model of `String.splitOn "/"` over the character list: segments between `/`. -/
def split_on_slash : List Char → List (List Char)
  | [] => [[]]
  | c :: rest =>
    match split_on_slash rest with
    | [] => [[]]
    | seg :: segs => if c == '/' then [] :: seg :: segs else (c :: seg) :: segs

/-! ## Protocol types (llm-os-common/src/lib.rs) -/

inductive ErrorCode where
  | parseFailed
  | validationFailed
  | invalidMode
  | requestTooLarge
deriving DecidableEq, Repr

inductive ActionErrorCode where
  | policyDenied
  | confirmationRequired
  | execFailed
  | execTimedOut
  | readFailed
  | writeFailed
  | invalidModeString
deriving DecidableEq, Repr

inductive Mode where
  | planOnly
  | execute
deriving DecidableEq, Repr, BEq

structure Confirmation where
  token : String
deriving DecidableEq, Repr

structure CgroupApplyAction where
  pid : Option Nat
  unit : Option String
  cpu_weight : Option Nat
  mem_max_bytes : Option Nat
  reason : String
  danger : Option String
  recovery : Option String
deriving DecidableEq, Repr

inductive ObserveTool where
  | ps
  | top
  | journalctl
  | perf
  | bpftrace
  | other
deriving DecidableEq, Repr

structure ObserveAction where
  tool : ObserveTool
  args : List String
  reason : String
  danger : Option String
  recovery : Option String
deriving DecidableEq, Repr

inductive PackageManager where
  | apt
  | dnf
  | pacman
  | zypper
  | brew
  | other
deriving DecidableEq, Repr

structure UpdateSystemAction where
  manager : PackageManager
  reason : String
  danger : Option String
  recovery : Option String
deriving DecidableEq, Repr

structure RemovePackagesAction where
  manager : PackageManager
  packages : List String
  reason : String
  danger : Option String
  recovery : Option String
deriving DecidableEq, Repr

structure InstallPackagesAction where
  manager : PackageManager
  packages : List String
  reason : String
  danger : Option String
  recovery : Option String
deriving DecidableEq, Repr

inductive ServiceControlVerb where
  | start
  | stop
  | restart
  | enable
  | disable
  | status
deriving DecidableEq, Repr

structure ServiceControlAction where
  action : ServiceControlVerb
  unit : String
  reason : String
  danger : Option String
  recovery : Option String
deriving DecidableEq, Repr

/-- Field `env` is a `BTreeMap<String,String>` in the source; modelled as an
association list (entry order immaterial to every property proved here). -/
structure ExecAction where
  argv : List String
  cwd : Option String
  env : Option (List (String × String))
  timeout_sec : Nat
  as_root : Bool
  reason : String
  danger : Option String
  recovery : Option String
deriving DecidableEq, Repr

structure ReadFileAction where
  path : String
  max_bytes : Nat
  reason : String
  danger : Option String
  recovery : Option String
deriving DecidableEq, Repr

structure WriteFileAction where
  path : String
  content : String
  mode : String
  reason : String
  danger : Option String
  recovery : Option String
deriving DecidableEq, Repr

/-- Modelled from the spec: the `firmware_op` payload and its `op`
enumeration are referenced by llm-osd/src/server.rs
(`llm_os_common::FirmwareOp`, `llm_os_common::FirmwareOpAction`) but their
declarations are missing from the copy of llm-os-common/src/lib.rs in this
snapshot.  Fields follow the spec table: `op` with the three operations and
an optional `uefi_var_name`, plus the common reason/danger/recovery. -/
inductive FirmwareOp where
  | inventory
  | fwupdUpdate
  | uefiVarRead
deriving DecidableEq, Repr

/-- Modelled from the spec: see `FirmwareOp`. -/
structure FirmwareOpAction where
  op : FirmwareOp
  uefi_var_name : Option String
  reason : String
  danger : Option String
  recovery : Option String
deriving DecidableEq, Repr

inductive Action where
  | exec (e : ExecAction)
  | readFile (r : ReadFileAction)
  | writeFile (w : WriteFileAction)
  | serviceControl (s : ServiceControlAction)
  | installPackages (p : InstallPackagesAction)
  | removePackages (p : RemovePackagesAction)
  | updateSystem (u : UpdateSystemAction)
  | observe (o : ObserveAction)
  | cgroupApply (c : CgroupApplyAction)
  | firmwareOp (f : FirmwareOpAction)
  | ping
deriving DecidableEq, Repr

structure ActionPlan where
  request_id : String
  session_id : Option String
  version : String
  mode : Mode
  actions : List Action
  confirmation : Option Confirmation
deriving DecidableEq, Repr

structure RequestError where
  code : ErrorCode
  message : String
deriving DecidableEq, Repr

structure ActionError where
  code : ActionErrorCode
  message : String
deriving DecidableEq, Repr

structure ExecResult where
  ok : Bool
  exit_code : Option Int
  stdout : String
  stdout_truncated : Bool
  stderr : String
  stderr_truncated : Bool
  error : Option ActionError
deriving DecidableEq, Repr

structure ReadFileResult where
  ok : Bool
  content_base64 : Option String
  truncated : Bool
  error : Option ActionError
deriving DecidableEq, Repr

structure WriteFileResult where
  ok : Bool
  artifacts : List String
  error : Option ActionError
deriving DecidableEq, Repr

structure ServiceControlResult where
  ok : Bool
  argv : List String
  error : Option ActionError
deriving DecidableEq, Repr

structure InstallPackagesResult where
  ok : Bool
  argv : List String
  error : Option ActionError
deriving DecidableEq, Repr

structure RemovePackagesResult where
  ok : Bool
  argv : List String
  error : Option ActionError
deriving DecidableEq, Repr

structure UpdateSystemResult where
  ok : Bool
  argv : List String
  error : Option ActionError
deriving DecidableEq, Repr

structure ObserveResult where
  ok : Bool
  argv : List String
  error : Option ActionError
deriving DecidableEq, Repr

structure CgroupApplyResult where
  ok : Bool
  argv : List String
  error : Option ActionError
deriving DecidableEq, Repr

/-- Modelled from the spec: result payload for `firmware_op`; referenced by
server.rs as `llm_os_common::FirmwareOpResult` but missing from the snapshot
of lib.rs.  Shape follows the other preview-only results. -/
structure FirmwareOpResult where
  ok : Bool
  argv : List String
  error : Option ActionError
deriving DecidableEq, Repr

structure PongResult where
  ok : Bool
deriving DecidableEq, Repr

inductive ActionResult where
  | exec (e : ExecResult)
  | readFile (r : ReadFileResult)
  | writeFile (w : WriteFileResult)
  | serviceControl (s : ServiceControlResult)
  | installPackages (p : InstallPackagesResult)
  | removePackages (p : RemovePackagesResult)
  | updateSystem (u : UpdateSystemResult)
  | observe (o : ObserveResult)
  | cgroupApply (c : CgroupApplyResult)
  | firmwareOp (f : FirmwareOpResult)
  | pong (p : PongResult)
deriving DecidableEq, Repr

structure ActionPlanResult where
  request_id : String
  executed : Bool
  results : List ActionResult
  error : Option RequestError
deriving DecidableEq, Repr

/-! ## Policy engine (llm-osd/src/policy.rs) -/

def exec_allowed_without_confirmation (program : String) : Bool :=
  program == "/bin/echo" || program == "echo"

def is_exec_denied (exec : ExecAction) : Bool :=
  match exec.argv.head? with
  | none => true
  | some program =>
    program == "/bin/dd" || program == "dd" ||
    program == "/sbin/mkfs" || program == "/sbin/mkfs.ext4" ||
    program == "mkfs" || program == "mkfs.ext4" ||
    program == "/sbin/shutdown" || program == "shutdown" ||
    program == "/sbin/reboot" || program == "reboot"

def exec_requires_confirmation (exec : ExecAction) : Bool :=
  match exec.argv.head? with
  | none => true
  | some program =>
    if program == "/bin/rm" || program == "rm" then true
    else !exec_allowed_without_confirmation program

/-- Model of `Path::new(path).components().any(|c| matches!(c, Component::ParentDir))`:
on Unix a `Component::ParentDir` is produced exactly for each `/`-separated
segment equal to `".."` (empty and `"."` segments never yield `ParentDir`),
so the check is modelled over `/`-split segments. -/
def has_parent_dir (path : String) : Bool :=
  (split_on_slash path.data).any (· == ['.', '.'])

def path_requires_confirmation (path : String) : Bool :=
  (str_starts_with path "/" && !str_starts_with path "/tmp/") || has_parent_dir path

def confirmation_is_valid (token : Option String) (expected_token : String) : Bool :=
  match token with
  | some t => str_trim t == expected_token
  | none => false

/-! ## Validator (llm-os-common/src/lib.rs, `validate_action_plan`) -/

structure ValidationError where
  message : String
deriving DecidableEq, Repr

def is_octal_mode (mode : String) : Bool :=
  let chars := (str_trim mode).data
  let chars := if starts_with_chars chars ['0', 'o'] then chars.drop 2 else chars
  (chars.length == 3 || chars.length == 4) &&
    chars.all (fun c => ('0' ≤ c) && (c ≤ '7'))

def require_confirmation (plan : ActionPlan) (message : String) :
    Except ValidationError Unit :=
  match plan.confirmation with
  | some c => if str_trim c.token = "" then .error ⟨message⟩ else .ok ()
  | none => .error ⟨message⟩

def validate_env_entries : List (String × String) → Except ValidationError Unit
  | [] => .ok ()
  | (k, v) :: rest =>
    if str_byte_len k > 128 then .error ⟨"exec.env key is too long"⟩
    else if str_byte_len v > 2048 then .error ⟨"exec.env value is too long"⟩
    else validate_env_entries rest

/-- The `?` early-return: propagate the error, else continue. -/
def and_then (x : Except ValidationError Unit) (k : Except ValidationError Unit) :
    Except ValidationError Unit :=
  match x with
  | .error err => .error err
  | .ok _ => k

def validate_exec (plan : ActionPlan) (exec : ExecAction) :
    Except ValidationError Unit :=
  if exec.argv.isEmpty then .error ⟨"exec.argv must be non-empty"⟩
  else if exec.as_root then .error ⟨"exec.as_root is not supported"⟩
  else if exec.argv.length > 64 then .error ⟨"exec.argv has too many args"⟩
  else if exec.argv.any (fun a => str_byte_len a > 2048) then
    .error ⟨"exec.argv arg is too long"⟩
  else if (match exec.cwd with
           | some cwd => str_trim cwd == ""
           | none => false) then
    .error ⟨"exec.cwd must be non-empty when provided"⟩
  else if (match exec.env with
           | some env => decide (env.length > 32)
           | none => false) then
    .error ⟨"exec.env has too many entries"⟩
  else
    and_then (match exec.env with
              | some env => validate_env_entries env
              | none => .ok ()) <|
    if exec.timeout_sec = 0 then .error ⟨"exec.timeout_sec must be >= 1"⟩
    else if exec.timeout_sec > 60 then .error ⟨"exec.timeout_sec is too large"⟩
    else if str_trim exec.reason = "" then .error ⟨"exec.reason must be non-empty"⟩
    else if str_byte_len exec.reason > 2048 then .error ⟨"reason is too long"⟩
    else if (match exec.danger with
             | some danger => decide (str_byte_len danger > 2048)
             | none => false) then
      .error ⟨"danger is too long"⟩
    else if (match exec.recovery with
             | some recovery => decide (str_byte_len recovery > 2048)
             | none => false) then
      .error ⟨"recovery is too long"⟩
    else if exec.danger.isSome then
      require_confirmation plan "exec requires confirmation when danger is set"
    else .ok ()

def validate_read (plan : ActionPlan) (read : ReadFileAction) :
    Except ValidationError Unit :=
  if str_trim read.path = "" then .error ⟨"read_file.path must be non-empty"⟩
  else if str_byte_len read.path > 4096 then .error ⟨"path is too long"⟩
  else if read.max_bytes = 0 then .error ⟨"read_file.max_bytes must be >= 1"⟩
  else if read.max_bytes > 64 * 1024 then
    .error ⟨"read_file.max_bytes is too large"⟩
  else if str_trim read.reason = "" then .error ⟨"read_file.reason must be non-empty"⟩
  else if str_byte_len read.reason > 2048 then .error ⟨"reason is too long"⟩
  else if (match read.danger with
           | some danger => decide (str_byte_len danger > 2048)
           | none => false) then
    .error ⟨"danger is too long"⟩
  else if (match read.recovery with
           | some recovery => decide (str_byte_len recovery > 2048)
           | none => false) then
    .error ⟨"recovery is too long"⟩
  else if read.danger.isSome then
    require_confirmation plan "read_file requires confirmation when danger is set"
  else .ok ()

def validate_write (plan : ActionPlan) (write : WriteFileAction) :
    Except ValidationError Unit :=
  if str_trim write.path = "" then .error ⟨"write_file.path must be non-empty"⟩
  else if str_byte_len write.path > 4096 then .error ⟨"path is too long"⟩
  else if str_byte_len write.content > 64 * 1024 then
    .error ⟨"write_file.content is too large"⟩
  else if str_trim write.mode = "" then .error ⟨"write_file.mode must be non-empty"⟩
  else if str_byte_len write.mode > 128 then .error ⟨"write_file.mode is too long"⟩
  else if !is_octal_mode write.mode then .error ⟨"write_file.mode is invalid"⟩
  else if str_trim write.reason = "" then
    .error ⟨"write_file.reason must be non-empty"⟩
  else if str_byte_len write.reason > 2048 then .error ⟨"reason is too long"⟩
  else if (match write.danger with
           | some danger => decide (str_byte_len danger > 2048)
           | none => false) then
    .error ⟨"danger is too long"⟩
  else if (match write.recovery with
           | some recovery => decide (str_byte_len recovery > 2048)
           | none => false) then
    .error ⟨"recovery is too long"⟩
  else if write.danger.isSome then
    require_confirmation plan "write_file requires confirmation when danger is set"
  else .ok ()

def validate_service_control (svc : ServiceControlAction) :
    Except ValidationError Unit :=
  if str_trim svc.unit = "" then .error ⟨"service_control.unit must be non-empty"⟩
  else if str_byte_len svc.unit > 256 then
    .error ⟨"service_control.unit is too long"⟩
  else if str_trim svc.reason = "" then
    .error ⟨"service_control.reason must be non-empty"⟩
  else if str_byte_len svc.reason > 2048 then
    .error ⟨"service_control.reason is too long"⟩
  else .ok ()

def validate_package_entries (label : String) :
    List String → Except ValidationError Unit
  | [] => .ok ()
  | pkg :: rest =>
    if str_trim pkg = "" then
      .error ⟨label ++ ".packages entries must be non-empty"⟩
    else if str_byte_len pkg > 128 then
      .error ⟨label ++ ".packages entry is too long"⟩
    else validate_package_entries label rest

def validate_install_packages (pkgs : InstallPackagesAction) :
    Except ValidationError Unit :=
  if pkgs.packages.isEmpty then
    .error ⟨"install_packages.packages must be non-empty"⟩
  else if pkgs.packages.length > 128 then
    .error ⟨"install_packages.packages has too many entries"⟩
  else
    and_then (validate_package_entries "install_packages" pkgs.packages) <|
    if str_trim pkgs.reason = "" then
      .error ⟨"install_packages.reason must be non-empty"⟩
    else if str_byte_len pkgs.reason > 2048 then
      .error ⟨"install_packages.reason is too long"⟩
    else .ok ()

def validate_remove_packages (pkgs : RemovePackagesAction) :
    Except ValidationError Unit :=
  if pkgs.packages.isEmpty then
    .error ⟨"remove_packages.packages must be non-empty"⟩
  else if pkgs.packages.length > 128 then
    .error ⟨"remove_packages.packages has too many entries"⟩
  else
    and_then (validate_package_entries "remove_packages" pkgs.packages) <|
    if str_trim pkgs.reason = "" then
      .error ⟨"remove_packages.reason must be non-empty"⟩
    else if str_byte_len pkgs.reason > 2048 then
      .error ⟨"remove_packages.reason is too long"⟩
    else .ok ()

def validate_update_system (upd : UpdateSystemAction) :
    Except ValidationError Unit :=
  if str_trim upd.reason = "" then
    .error ⟨"update_system.reason must be non-empty"⟩
  else if str_byte_len upd.reason > 2048 then
    .error ⟨"update_system.reason is too long"⟩
  else .ok ()

def validate_observe_args : List String → Except ValidationError Unit
  | [] => .ok ()
  | arg :: rest =>
    if str_trim arg = "" then .error ⟨"observe.args entries must be non-empty"⟩
    else if str_byte_len arg > 2048 then .error ⟨"observe.args entry is too long"⟩
    else validate_observe_args rest

def validate_observe (obs : ObserveAction) : Except ValidationError Unit :=
  if obs.args.length > 64 then .error ⟨"observe.args has too many entries"⟩
  else
    and_then (validate_observe_args obs.args) <|
    if str_trim obs.reason = "" then .error ⟨"observe.reason must be non-empty"⟩
    else if str_byte_len obs.reason > 2048 then
      .error ⟨"observe.reason is too long"⟩
    else .ok ()

def validate_cgroup_apply (cg : CgroupApplyAction) :
    Except ValidationError Unit :=
  if cg.pid.isNone && cg.unit.isNone then
    .error ⟨"cgroup_apply requires pid or unit"⟩
  else if cg.pid.isSome && cg.unit.isSome then
    .error ⟨"cgroup_apply must not set both pid and unit"⟩
  else if (match cg.unit with
           | some unit => str_trim unit == ""
           | none => false) then
    .error ⟨"cgroup_apply.unit must be non-empty when provided"⟩
  else if (match cg.unit with
           | some unit => decide (str_byte_len unit > 256)
           | none => false) then
    .error ⟨"cgroup_apply.unit is too long"⟩
  else if cg.cpu_weight.isNone && cg.mem_max_bytes.isNone then
    .error ⟨"cgroup_apply requires at least one setting"⟩
  else if str_trim cg.reason = "" then
    .error ⟨"cgroup_apply.reason must be non-empty"⟩
  else if str_byte_len cg.reason > 2048 then
    .error ⟨"cgroup_apply.reason is too long"⟩
  else .ok ()

/-- Modelled from the spec: the validator arm for `firmware_op` is missing
together with its type from the snapshot of lib.rs; the spec's data-model
table demands `op` in the closed set (enforced by the `FirmwareOp` type) and
`uefi_var_name` non-blank when `op` is `uefi_var_read`, next to the common
reason bound. -/
def validate_firmware (fw : FirmwareOpAction) : Except ValidationError Unit :=
  if fw.op = .uefiVarRead && str_trim (fw.uefi_var_name.getD "") == "" then
    .error ⟨"firmware_op.uefi_var_name must be non-empty"⟩
  else if str_trim fw.reason = "" then
    .error ⟨"firmware_op.reason must be non-empty"⟩
  else if str_byte_len fw.reason > 2048 then
    .error ⟨"firmware_op.reason is too long"⟩
  else .ok ()

def validate_action (plan : ActionPlan) : Action → Except ValidationError Unit
  | .exec e => validate_exec plan e
  | .readFile r => validate_read plan r
  | .writeFile w => validate_write plan w
  | .serviceControl s => validate_service_control s
  | .installPackages p => validate_install_packages p
  | .removePackages p => validate_remove_packages p
  | .updateSystem u => validate_update_system u
  | .observe o => validate_observe o
  | .cgroupApply c => validate_cgroup_apply c
  | .firmwareOp f => validate_firmware f
  | .ping => .ok ()

def validate_actions (plan : ActionPlan) : List Action → Except ValidationError Unit
  | [] => .ok ()
  | a :: rest => and_then (validate_action plan a) (validate_actions plan rest)

def validate_action_plan (plan : ActionPlan) : Except ValidationError Unit :=
  if plan.actions.length > 64 then .error ⟨"too many actions"⟩
  else if str_trim plan.request_id = "" then
    .error ⟨"request_id must be non-empty"⟩
  else if str_byte_len plan.request_id > 128 then
    .error ⟨"request_id is too long"⟩
  else if (match plan.session_id with
           | some session_id => str_trim session_id == ""
           | none => false) then
    .error ⟨"session_id must be non-empty when provided"⟩
  else if (match plan.session_id with
           | some session_id => decide (str_byte_len session_id > 128)
           | none => false) then
    .error ⟨"session_id is too long"⟩
  else if (match plan.confirmation with
           | some conf => str_trim conf.token == ""
           | none => false) then
    .error ⟨"confirmation.token must be non-empty"⟩
  else if (match plan.confirmation with
           | some conf => decide (str_byte_len conf.token > 1024)
           | none => false) then
    .error ⟨"confirmation.token is too long"⟩
  else if str_trim plan.version = "" then .error ⟨"version must be non-empty"⟩
  else if str_byte_len plan.version > 128 then .error ⟨"version is too long"⟩
  else validate_actions plan plan.actions

/-! ## base64 (the `base64` crate's STANDARD engine, as used by files.rs)

Standard alphabet with `=` padding; bytes are `Nat` values below 256. -/

def b64_alphabet : List Char :=
  ['A', 'B', 'C', 'D', 'E', 'F', 'G', 'H', 'I', 'J', 'K', 'L', 'M',
   'N', 'O', 'P', 'Q', 'R', 'S', 'T', 'U', 'V', 'W', 'X', 'Y', 'Z',
   'a', 'b', 'c', 'd', 'e', 'f', 'g', 'h', 'i', 'j', 'k', 'l', 'm',
   'n', 'o', 'p', 'q', 'r', 's', 't', 'u', 'v', 'w', 'x', 'y', 'z',
   '0', '1', '2', '3', '4', '5', '6', '7', '8', '9', '+', '/']

def b64_char (n : Nat) : Char := b64_alphabet.getD n 'A'

def b64_val (c : Char) : Option Nat := b64_alphabet.findIdx? (fun x => x == c)

def b64_encode : List Nat → List Char
  | [] => []
  | [a] => [b64_char (a / 4), b64_char (a % 4 * 16), '=', '=']
  | [a, b] => [b64_char (a / 4), b64_char (a % 4 * 16 + b / 16), b64_char (b % 16 * 4), '=']
  | a :: b :: c :: rest =>
    b64_char (a / 4) :: b64_char (a % 4 * 16 + b / 16) ::
      b64_char (b % 16 * 4 + c / 64) :: b64_char (c % 64) :: b64_encode rest

def b64_decode : List Char → Option (List Nat)
  | [] => some []
  | w :: x :: y :: z :: rest =>
    match b64_val w, b64_val x with
    | some v1, some v2 =>
      if y == '=' then
        if z == '=' && rest.isEmpty then some [v1 * 4 + v2 / 16] else none
      else
        match b64_val y with
        | some v3 =>
          if z == '=' then
            if rest.isEmpty then some [v1 * 4 + v2 / 16, v2 % 16 * 16 + v3 / 4]
            else none
          else
            match b64_val z with
            | some v4 =>
              match b64_decode rest with
              | some tail =>
                some ((v1 * 4 + v2 / 16) :: (v2 % 16 * 16 + v3 / 4) ::
                      (v3 % 4 * 64 + v4) :: tail)
              | none => none
            | none => none
        | none => none
    | _, _ => none
  | _ => none

/-! ## File handlers (llm-osd/src/actions/files.rs) -/

/-- One iteration's append in `read`: `data.extend_from_slice(&buf[..n.min(remaining)])`
with `remaining = (max+1).saturating_sub(data.len())` (here `cap = max+1`). -/
def read_chunk_append (cap : Nat) (data chunk : List Nat) : List Nat :=
  data ++ chunk.take (min chunk.length (cap - data.length))

/-- The bounded read loop of `read`: while `data.len() < max+1`, read a chunk
of at most 4096 bytes from the current file position (reads modelled as
maximal-length) and append at most `remaining` of it; a zero-length read is
EOF.  `cap` is `max + 1`. -/
def read_loop (cap : Nat) (rest data : List Nat) : List Nat :=
  if data.length < cap then
    if h : (rest.take 4096).isEmpty then data
    else read_loop cap (rest.drop 4096) (read_chunk_append cap data (rest.take 4096))
  else data
termination_by rest.length
decreasing_by
  cases rest with
  | nil => simp at h
  | cons a t => simp [List.length_drop]; omega

/-- The body of `read` after a successful open, on the file's contents:
read at most `max+1` bytes, mark truncation, keep the first `max`,
base64-encode. -/
def read_file_data (contents : List Nat) (max : Nat) : ReadFileResult :=
  let data := read_loop (max + 1) contents []
  let truncated := decide (max < data.length)
  let slice := if max < data.length then data.take max else data
  { ok := true, content_base64 := some ⟨b64_encode slice⟩,
    truncated := truncated, error := none }

/-- Model of `u32::from_str_radix` after trimming and stripping an optional `0o`:
digits 0..7 only; the OS-independent error message is the literal from
files.rs.  (Overflow is unreachable post-validation and not modelled.) -/
def parse_mode (mode : String) : Except String Nat :=
  let cs := (str_trim mode).data
  let cs := if starts_with_chars cs ['0', 'o'] then cs.drop 2 else cs
  if cs.isEmpty then .error "mode must be an octal string like 0644"
  else if cs.all (fun c => ('0' ≤ c) && (c ≤ '7')) then
    .ok (cs.foldl (fun n c => n * 8 + (c.toNat - '0'.toNat)) 0)
  else .error "mode must be an octal string like 0644"

/-! ## Exec handler (llm-osd/src/actions/exec.rs)

This file, as it stands in the snapshot, fills the `error` field of
`ExecResult` with plain `String`s (`Some("exec timed out".to_string())`,
`Some(format!("exec failed: {err}"))`, `Some("missing argv[0]".to_string())`)
although llm-os-common declares `ExecResult.error: Option<ActionError>`;
it does not type-check against the protocol types.  It is therefore
embedded against its own literal result shape, `ExecRunResult`, with
`error : Option String`. -/

def MAX_STDIO_BYTES : Nat := 8192

/-- Bytewise model of `String::from_utf8_lossy`; the exact replacement-char
behavior on invalid UTF-8 is immaterial to every property proved here. -/
def lossy_string (bytes : List Nat) : String :=
  ⟨bytes.map Char.ofNat⟩

def truncate_bytes (bytes : List Nat) : String × Bool :=
  if bytes.length ≤ MAX_STDIO_BYTES then (lossy_string bytes, false)
  else (lossy_string (bytes.take MAX_STDIO_BYTES) ++ "\n[truncated]\n", true)

/-- Environment outcome of `cmd.output()` under the `timeout_sec` bound. -/
inductive ExecOutcome where
  | spawnFailed (msg : String)
  | timedOut
  | exited (success : Bool) (code : Option Int) (stdout stderr : List Nat)

/-- The result shape actions/exec.rs actually constructs (`error` a plain
string, not an `ActionError`). -/
structure ExecRunResult where
  ok : Bool
  exit_code : Option Int
  stdout : String
  stdout_truncated : Bool
  stderr : String
  stderr_truncated : Bool
  error : Option String
deriving DecidableEq, Repr

def exec_run (outcome : ExecAction → ExecOutcome) (exec : ExecAction) :
    ExecRunResult :=
  match exec.argv.head? with
  | none =>
    { ok := false, exit_code := none, stdout := "", stdout_truncated := false,
      stderr := "", stderr_truncated := false, error := some "missing argv[0]" }
  | some _ =>
    match outcome exec with
    | .spawnFailed msg =>
      { ok := false, exit_code := none, stdout := "", stdout_truncated := false,
        stderr := "", stderr_truncated := false,
        error := some ("exec failed: " ++ msg) }
    | .timedOut =>
      { ok := false, exit_code := none, stdout := "", stdout_truncated := false,
        stderr := "", stderr_truncated := false, error := some "exec timed out" }
    | .exited success code out err =>
      let so := truncate_bytes out
      let se := truncate_bytes err
      { ok := success, exit_code := code, stdout := so.1,
        stdout_truncated := so.2, stderr := se.1, stderr_truncated := se.2,
        error := none }

/-! ## World state

The daemon's externally visible effects: the filesystem, the ledger of
spawned subprocesses, and the clock and peer credentials read when building
the audit record. -/

structure PeerCredentials where
  pid : Int
  uid : Nat
  gid : Nat
deriving DecidableEq, Repr

structure World where
  fs : String → Option (List Nat)
  /-- Stands in for the (ill-typed, see `exec_run`) exec handler's value at
  the dispatch layer; `exec_run` models the handler itself for its own
  claims. -/
  exec_handler : ExecAction → ExecResult
  spawned : List (List String)
  now_ms : Nat
  peer : Option PeerCredentials

/-- Bytewise model of `content.as_bytes()` (exact for ASCII; multi-byte
UTF-8 immaterial to every property proved here). -/
def str_to_bytes (s : String) : List Nat := s.data.map Char.toNat

/-- Handler `files::read`: open (fs lookup; the OS error text is abstracted), then
the bounded read.  Reading has no effect on the filesystem. -/
def files_read (w : World) (read : ReadFileAction) : ActionResult × World :=
  match w.fs read.path with
  | none =>
    (.readFile { ok := false, content_base64 := none, truncated := false,
                 error := some ⟨.readFailed, "read failed: file not found"⟩ }, w)
  | some contents => (.readFile (read_file_data contents read.max_bytes), w)

/-- Handler `files::write`: parse the octal mode, then write the content and apply
the mode (the write and chmod syscalls are modelled as succeeding on the
local filesystem). -/
def files_write (w : World) (write : WriteFileAction) : ActionResult × World :=
  match parse_mode write.mode with
  | .error err =>
    (.writeFile { ok := false, artifacts := [],
                  error := some ⟨.invalidModeString, err⟩ }, w)
  | .ok _ =>
    (.writeFile { ok := true, artifacts := [write.path], error := none },
     { w with fs := fun p => if p = write.path
                             then some (str_to_bytes write.content)
                             else w.fs p })

/-! ## Dispatch (llm-osd/src/server.rs, `execute_action` / `plan_action`) -/

def denied_exec_result : ActionResult :=
  .exec { ok := false, exit_code := none, stdout := "", stdout_truncated := false,
          stderr := "", stderr_truncated := false,
          error := some ⟨.policyDenied, "exec denied by policy"⟩ }

def confirmation_required_exec_result : ActionResult :=
  .exec { ok := false, exit_code := none, stdout := "", stdout_truncated := false,
          stderr := "", stderr_truncated := false,
          error := some ⟨.confirmationRequired, "confirmation required"⟩ }

def confirmation_required_read_result : ActionResult :=
  .readFile { ok := false, content_base64 := none, truncated := false,
              error := some ⟨.confirmationRequired, "confirmation required"⟩ }

def confirmation_required_write_result : ActionResult :=
  .writeFile { ok := false, artifacts := [],
               error := some ⟨.confirmationRequired, "confirmation required"⟩ }

def unsupported_result (name : String) : ActionError :=
  ⟨.policyDenied, name ++ " is not supported in execute mode"⟩

def execute_action (action : Action) (confirmation_token : Option String)
    (confirm_token : String) (w : World) : ActionResult × World :=
  match action with
  | .exec exec =>
    if is_exec_denied exec then (denied_exec_result, w)
    else if exec_requires_confirmation exec &&
            !confirmation_is_valid confirmation_token confirm_token then
      (confirmation_required_exec_result, w)
    else
      (.exec (w.exec_handler exec), { w with spawned := w.spawned ++ [exec.argv] })
  | .readFile read =>
    if path_requires_confirmation read.path &&
       !confirmation_is_valid confirmation_token confirm_token then
      (confirmation_required_read_result, w)
    else files_read w read
  | .writeFile write =>
    if path_requires_confirmation write.path &&
       !confirmation_is_valid confirmation_token confirm_token then
      (confirmation_required_write_result, w)
    else files_write w write
  | .serviceControl _ =>
    (.serviceControl { ok := false, argv := [],
                       error := some (unsupported_result "service_control") }, w)
  | .installPackages _ =>
    (.installPackages { ok := false, argv := [],
                        error := some (unsupported_result "install_packages") }, w)
  | .removePackages _ =>
    (.removePackages { ok := false, argv := [],
                       error := some (unsupported_result "remove_packages") }, w)
  | .updateSystem _ =>
    (.updateSystem { ok := false, argv := [],
                     error := some (unsupported_result "update_system") }, w)
  | .observe _ =>
    (.observe { ok := false, argv := [],
                error := some (unsupported_result "observe") }, w)
  | .cgroupApply _ =>
    (.cgroupApply { ok := false, argv := [],
                    error := some (unsupported_result "cgroup_apply") }, w)
  | .firmwareOp _ =>
    (.firmwareOp { ok := false, argv := [],
                   error := some (unsupported_result "firmware_op") }, w)
  | .ping => (.pong { ok := true }, w)

def service_verb : ServiceControlVerb → String
  | .start => "start"
  | .stop => "stop"
  | .restart => "restart"
  | .enable => "enable"
  | .disable => "disable"
  | .status => "status"

def install_argv_base : PackageManager → Option (List String)
  | .apt => some ["apt-get", "install", "-y"]
  | .dnf => some ["dnf", "install", "-y"]
  | .pacman => some ["pacman", "-S", "--noconfirm"]
  | .zypper => some ["zypper", "install", "-y"]
  | .brew => some ["brew", "install"]
  | .other => none

def remove_argv_base : PackageManager → Option (List String)
  | .apt => some ["apt-get", "remove", "-y"]
  | .dnf => some ["dnf", "remove", "-y"]
  | .pacman => some ["pacman", "-R", "--noconfirm"]
  | .zypper => some ["zypper", "remove", "-y"]
  | .brew => some ["brew", "uninstall"]
  | .other => none

def observe_tool_name : ObserveTool → Option String
  | .ps => some "ps"
  | .top => some "top"
  | .journalctl => some "journalctl"
  | .perf => some "perf"
  | .bpftrace => some "bpftrace"
  | .other => none

def cgroup_argv (cg : CgroupApplyAction) : Option (List String) :=
  let argv := ["systemd-run", "--scope"]
  let argv := argv ++ (match cg.cpu_weight with
    | some w => ["-p", "CPUWeight=" ++ toString w]
    | none => [])
  let argv := argv ++ (match cg.mem_max_bytes with
    | some m => ["-p", "MemoryMax=" ++ toString m]
    | none => [])
  match cg.pid with
  | some pid => some (argv ++ ["--pid=" ++ toString pid])
  | none =>
    match cg.unit with
    | some unit => some (argv ++ ["--unit=" ++ unit])
    | none => none

def plan_action (action : Action) (confirmation_token : Option String)
    (confirm_token : String) (w : World) : ActionResult × World :=
  match action with
  | .exec exec =>
    if is_exec_denied exec then (denied_exec_result, w)
    else if exec_requires_confirmation exec &&
            !confirmation_is_valid confirmation_token confirm_token then
      (confirmation_required_exec_result, w)
    else
      (.exec { ok := true, exit_code := none, stdout := "",
               stdout_truncated := false, stderr := "",
               stderr_truncated := false, error := none }, w)
  | .readFile read =>
    if path_requires_confirmation read.path &&
       !confirmation_is_valid confirmation_token confirm_token then
      (confirmation_required_read_result, w)
    else
      (.readFile { ok := true, content_base64 := none, truncated := false,
                   error := none }, w)
  | .writeFile write =>
    if path_requires_confirmation write.path &&
       !confirmation_is_valid confirmation_token confirm_token then
      (confirmation_required_write_result, w)
    else
      (.writeFile { ok := true, artifacts := [], error := none }, w)
  | .serviceControl svc =>
    (.serviceControl { ok := true,
                       argv := ["systemctl", service_verb svc.action, svc.unit],
                       error := none }, w)
  | .installPackages pkgs =>
    match install_argv_base pkgs.manager with
    | some base =>
      (.installPackages { ok := true, argv := base ++ pkgs.packages,
                          error := none }, w)
    | none =>
      (.installPackages
        { ok := false, argv := [],
          error := some ⟨.policyDenied, "install_packages manager not supported"⟩ }, w)
  | .removePackages pkgs =>
    match remove_argv_base pkgs.manager with
    | some base =>
      (.removePackages { ok := true, argv := base ++ pkgs.packages,
                         error := none }, w)
    | none =>
      (.removePackages
        { ok := false, argv := [],
          error := some ⟨.policyDenied, "remove_packages manager not supported"⟩ }, w)
  | .updateSystem upd =>
    match upd.manager with
    | .apt =>
      (.updateSystem
        { ok := true,
          argv := ["apt-get", "update", "&&", "apt-get", "upgrade", "-y"],
          error := none }, w)
    | _ =>
      (.updateSystem
        { ok := false, argv := [],
          error := some ⟨.policyDenied, "update_system manager not supported"⟩ }, w)
  | .observe obs =>
    match observe_tool_name obs.tool with
    | some base =>
      (.observe { ok := true, argv := base :: obs.args, error := none }, w)
    | none =>
      (.observe
        { ok := false, argv := [],
          error := some ⟨.policyDenied, "observe tool not supported"⟩ }, w)
  | .cgroupApply cg =>
    match cgroup_argv cg with
    | some argv => (.cgroupApply { ok := true, argv := argv, error := none }, w)
    | none =>
      (.cgroupApply
        { ok := false, argv := [],
          error := some ⟨.policyDenied, "cgroup_apply target is invalid"⟩ }, w)
  | .firmwareOp fw =>
    match fw.op with
    | .inventory =>
      (.firmwareOp { ok := true, argv := ["dmidecode"], error := none }, w)
    | .fwupdUpdate =>
      (.firmwareOp { ok := true, argv := ["fwupdmgr", "update"], error := none }, w)
    | .uefiVarRead =>
      let name := fw.uefi_var_name.getD ""
      if str_trim name = "" then
        (.firmwareOp
          { ok := false, argv := [],
            error := some ⟨.policyDenied, "firmware_op target is invalid"⟩ }, w)
      else
        (.firmwareOp
          { ok := true,
            argv := ["cat", "/sys/firmware/efi/efivars/" ++ name],
            error := none }, w)
  | .ping => (.pong { ok := true }, w)

/-! ## JSON views and redaction (llm-osd/src/audit.rs)

`serde_json::Value`; objects are association lists.  (serde_json's default
map is a `BTreeMap`, so the concrete key order of a serialized object is
alphabetical; the embedding keeps declaration order, which is immaterial
because redaction only replaces values at existing keys.) -/

inductive Json where
  | null
  | bool (b : Bool)
  | num (n : Int)
  | str (s : String)
  | arr (xs : List Json)
  | obj (fields : List (String × Json))

/-- Value lookup in an object, `obj.get(key)`. -/
def obj_get (fields : List (String × Json)) (key : String) : Option Json :=
  match fields with
  | [] => none
  | (k, v) :: rest => if k = key then some v else obj_get rest key

/-- Model of `map.insert(key, value)` on a key already present: replace the value in
place.  (Only ever called under a presence check in audit.rs.) -/
def obj_set (fields : List (String × Json)) (key : String) (val : Json) :
    List (String × Json) :=
  match fields with
  | [] => []
  | (k, v) :: rest =>
    if k = key then (k, val) :: rest else (k, v) :: obj_set rest key val

def json_redacted : Json := .str "[redacted]"

def opt_str : Option String → Json
  | some s => .str s
  | none => .null

def mode_to_json : Mode → Json
  | .planOnly => .str "plan_only"
  | .execute => .str "execute"

def env_to_json : Option (List (String × String)) → Json
  | some env => .obj (env.map (fun kv => (kv.1, .str kv.2)))
  | none => .null

def observe_tool_to_json : ObserveTool → Json
  | .ps => .str "ps"
  | .top => .str "top"
  | .journalctl => .str "journalctl"
  | .perf => .str "perf"
  | .bpftrace => .str "bpftrace"
  | .other => .str "other"

def manager_to_json : PackageManager → Json
  | .apt => .str "apt"
  | .dnf => .str "dnf"
  | .pacman => .str "pacman"
  | .zypper => .str "zypper"
  | .brew => .str "brew"
  | .other => .str "other"

def verb_to_json : ServiceControlVerb → Json
  | .start => .str "start"
  | .stop => .str "stop"
  | .restart => .str "restart"
  | .enable => .str "enable"
  | .disable => .str "disable"
  | .status => .str "status"

def firmware_op_to_json : FirmwareOp → Json
  | .inventory => .str "inventory"
  | .fwupdUpdate => .str "fwupd_update"
  | .uefiVarRead => .str "uefi_var_read"

def opt_nat : Option Nat → Json
  | some n => .num n
  | none => .null

/-- serde serialization of an `Action` (internally tagged on `"type"`,
snake_case variant names, fields in declaration order). -/
def action_to_json : Action → Json
  | .exec e => .obj
      [("type", .str "exec"),
       ("argv", .arr (e.argv.map Json.str)),
       ("cwd", opt_str e.cwd),
       ("env", env_to_json e.env),
       ("timeout_sec", .num e.timeout_sec),
       ("as_root", .bool e.as_root),
       ("reason", .str e.reason),
       ("danger", opt_str e.danger),
       ("recovery", opt_str e.recovery)]
  | .readFile r => .obj
      [("type", .str "read_file"),
       ("path", .str r.path),
       ("max_bytes", .num r.max_bytes),
       ("reason", .str r.reason),
       ("danger", opt_str r.danger),
       ("recovery", opt_str r.recovery)]
  | .writeFile wf => .obj
      [("type", .str "write_file"),
       ("path", .str wf.path),
       ("content", .str wf.content),
       ("mode", .str wf.mode),
       ("reason", .str wf.reason),
       ("danger", opt_str wf.danger),
       ("recovery", opt_str wf.recovery)]
  | .serviceControl s => .obj
      [("type", .str "service_control"),
       ("action", verb_to_json s.action),
       ("unit", .str s.unit),
       ("reason", .str s.reason),
       ("danger", opt_str s.danger),
       ("recovery", opt_str s.recovery)]
  | .installPackages p => .obj
      [("type", .str "install_packages"),
       ("manager", manager_to_json p.manager),
       ("packages", .arr (p.packages.map Json.str)),
       ("reason", .str p.reason),
       ("danger", opt_str p.danger),
       ("recovery", opt_str p.recovery)]
  | .removePackages p => .obj
      [("type", .str "remove_packages"),
       ("manager", manager_to_json p.manager),
       ("packages", .arr (p.packages.map Json.str)),
       ("reason", .str p.reason),
       ("danger", opt_str p.danger),
       ("recovery", opt_str p.recovery)]
  | .updateSystem u => .obj
      [("type", .str "update_system"),
       ("manager", manager_to_json u.manager),
       ("reason", .str u.reason),
       ("danger", opt_str u.danger),
       ("recovery", opt_str u.recovery)]
  | .observe o => .obj
      [("type", .str "observe"),
       ("tool", observe_tool_to_json o.tool),
       ("args", .arr (o.args.map Json.str)),
       ("reason", .str o.reason),
       ("danger", opt_str o.danger),
       ("recovery", opt_str o.recovery)]
  | .cgroupApply c => .obj
      [("type", .str "cgroup_apply"),
       ("pid", opt_nat c.pid),
       ("unit", opt_str c.unit),
       ("cpu_weight", opt_nat c.cpu_weight),
       ("mem_max_bytes", opt_nat c.mem_max_bytes),
       ("reason", .str c.reason),
       ("danger", opt_str c.danger),
       ("recovery", opt_str c.recovery)]
  | .firmwareOp f => .obj
      [("type", .str "firmware_op"),
       ("op", firmware_op_to_json f.op),
       ("uefi_var_name", opt_str f.uefi_var_name),
       ("reason", .str f.reason),
       ("danger", opt_str f.danger),
       ("recovery", opt_str f.recovery)]
  | .ping => .obj [("type", .str "ping")]

def confirmation_to_json : Option Confirmation → Json
  | some c => .obj [("token", .str c.token)]
  | none => .null

def plan_to_json (plan : ActionPlan) : Json :=
  .obj [("request_id", .str plan.request_id),
        ("session_id", opt_str plan.session_id),
        ("version", .str plan.version),
        ("mode", mode_to_json plan.mode),
        ("actions", .arr (plan.actions.map action_to_json)),
        ("confirmation", confirmation_to_json plan.confirmation)]

def action_error_code_to_json : ActionErrorCode → Json
  | .policyDenied => .str "policy_denied"
  | .confirmationRequired => .str "confirmation_required"
  | .execFailed => .str "exec_failed"
  | .execTimedOut => .str "exec_timed_out"
  | .readFailed => .str "read_failed"
  | .writeFailed => .str "write_failed"
  | .invalidModeString => .str "invalid_mode_string"

def action_error_to_json : Option ActionError → Json
  | some e => .obj [("code", action_error_code_to_json e.code),
                    ("message", .str e.message)]
  | none => .null

def opt_int : Option Int → Json
  | some n => .num n
  | none => .null

def argv_result_fields (ok : Bool) (argv : List String)
    (error : Option ActionError) : List (String × Json) :=
  [("ok", .bool ok), ("argv", .arr (argv.map Json.str)),
   ("error", action_error_to_json error)]

def action_result_to_json : ActionResult → Json
  | .exec e => .obj
      [("type", .str "exec"),
       ("ok", .bool e.ok),
       ("exit_code", opt_int e.exit_code),
       ("stdout", .str e.stdout),
       ("stdout_truncated", .bool e.stdout_truncated),
       ("stderr", .str e.stderr),
       ("stderr_truncated", .bool e.stderr_truncated),
       ("error", action_error_to_json e.error)]
  | .readFile r => .obj
      [("type", .str "read_file"),
       ("ok", .bool r.ok),
       ("content_base64", opt_str r.content_base64),
       ("truncated", .bool r.truncated),
       ("error", action_error_to_json r.error)]
  | .writeFile wf => .obj
      [("type", .str "write_file"),
       ("ok", .bool wf.ok),
       ("artifacts", .arr (wf.artifacts.map Json.str)),
       ("error", action_error_to_json wf.error)]
  | .serviceControl s =>
    .obj (("type", .str "service_control") :: argv_result_fields s.ok s.argv s.error)
  | .installPackages p =>
    .obj (("type", .str "install_packages") :: argv_result_fields p.ok p.argv p.error)
  | .removePackages p =>
    .obj (("type", .str "remove_packages") :: argv_result_fields p.ok p.argv p.error)
  | .updateSystem u =>
    .obj (("type", .str "update_system") :: argv_result_fields u.ok u.argv u.error)
  | .observe o =>
    .obj (("type", .str "observe") :: argv_result_fields o.ok o.argv o.error)
  | .cgroupApply c =>
    .obj (("type", .str "cgroup_apply") :: argv_result_fields c.ok c.argv c.error)
  | .firmwareOp f =>
    .obj (("type", .str "firmware_op") :: argv_result_fields f.ok f.argv f.error)
  | .pong p => .obj [("type", .str "pong"), ("ok", .bool p.ok)]

def error_code_to_json : ErrorCode → Json
  | .parseFailed => .str "parse_failed"
  | .validationFailed => .str "validation_failed"
  | .invalidMode => .str "invalid_mode"
  | .requestTooLarge => .str "request_too_large"

def request_error_to_json : Option RequestError → Json
  | some e => .obj [("code", error_code_to_json e.code),
                    ("message", .str e.message)]
  | none => .null

def result_to_json (r : ActionPlanResult) : Json :=
  .obj [("request_id", .str r.request_id),
        ("executed", .bool r.executed),
        ("results", .arr (r.results.map action_result_to_json)),
        ("error", request_error_to_json r.error)]

/-- Per-action redaction inside `redact_plan`'s loop over the `actions`
array. -/
def redact_action_json (a : Json) : Json :=
  match a with
  | .obj fields =>
    match obj_get fields "type" with
    | some (.str "write_file") =>
      if (obj_get fields "content").isSome then
        .obj (obj_set fields "content" json_redacted)
      else .obj fields
    | some (.str "exec") =>
      match obj_get fields "env" with
      | some (.obj env_fields) =>
        .obj (obj_set fields "env"
          (.obj (env_fields.map (fun kv => (kv.1, json_redacted)))))
      | _ => .obj fields
    | _ => .obj fields
  | j => j

def redact_conf_json (conf : Json) : Json :=
  match conf with
  | .obj fields =>
    if (obj_get fields "token").isSome then
      .obj (obj_set fields "token" json_redacted)
    else .obj fields
  | j => j

def redact_plan (v : Json) : Json :=
  match v with
  | .obj fields =>
    let fields := match obj_get fields "confirmation" with
      | some conf => obj_set fields "confirmation" (redact_conf_json conf)
      | none => fields
    let fields := match obj_get fields "actions" with
      | some (.arr xs) => obj_set fields "actions" (.arr (xs.map redact_action_json))
      | _ => fields
    .obj fields
  | j => j

def redact_result_action_json (a : Json) : Json :=
  match a with
  | .obj fields =>
    match obj_get fields "type" with
    | some (.str "exec") =>
      let fields := if (obj_get fields "stdout").isSome then
          obj_set fields "stdout" json_redacted
        else fields
      let fields := if (obj_get fields "stderr").isSome then
          obj_set fields "stderr" json_redacted
        else fields
      .obj fields
    | some (.str "observe") =>
      let fields := if (obj_get fields "stdout").isSome then
          obj_set fields "stdout" json_redacted
        else fields
      let fields := if (obj_get fields "stderr").isSome then
          obj_set fields "stderr" json_redacted
        else fields
      .obj fields
    | some (.str "read_file") =>
      if (obj_get fields "content_base64").isSome then
        .obj (obj_set fields "content_base64" json_redacted)
      else .obj fields
    | _ => .obj fields
  | j => j

def redact_result (v : Json) : Json :=
  match v with
  | .obj fields =>
    let fields := match obj_get fields "results" with
      | some (.arr xs) =>
        obj_set fields "results" (.arr (xs.map redact_result_action_json))
      | _ => fields
    .obj fields
  | j => j

/-! ## Connection handling (llm-osd/src/server.rs, `handle_client`) -/

def MAX_REQUEST_BYTES : Nat := 256 * 1024

/-- The read loop's buffer accumulation over the sequence of socket reads:
a zero-length read is EOF and breaks the loop; once the ceiling would be
crossed, `exceeded` is set and every further chunk is drained without being
appended (the crossing chunk itself is also dropped). -/
def recv_input : List (List Nat) → List Nat → Bool → List Nat × Bool
  | [], input, exceeded => (input, exceeded)
  | chunk :: rest, input, exceeded =>
    if chunk.isEmpty then (input, exceeded)
    else if exceeded then recv_input rest input true
    else if input.length + chunk.length > MAX_REQUEST_BYTES then
      recv_input rest input true
    else recv_input rest (input ++ chunk) false

/-- How the read loop terminated after the listed chunks: an idle timeout or
a zero-length read (EOF). -/
structure Inbound where
  chunks : List (List Nat)
  idleEnd : Bool

inductive Ev where
  | respWritten
  | auditWritten
deriving DecidableEq, Repr

/-- One audit line (audit.rs `AuditRecord`): the plan and result are stored
as their redacted JSON views. -/
structure AuditRecord where
  ts_unix_ms : Nat
  peer : Option PeerCredentials
  request_id : String
  session_id : Option String
  plan : Json
  result : Json

structure ClientOutcome where
  response : ActionPlanResult
  audit : List AuditRecord
  events : List Ev
  world : World

def write_request_error (request_id : String) (code : ErrorCode)
    (message : String) : ActionPlanResult :=
  { request_id := request_id, executed := false, results := [],
    error := some ⟨code, message⟩ }

def run_actions (mode : Mode) (confirmation_token : Option String)
    (confirm_token : String) : List Action → World → List ActionResult × World
  | [], w => ([], w)
  | a :: rest, w =>
    let step := match mode with
      | .execute => execute_action a confirmation_token confirm_token w
      | .planOnly => plan_action a confirmation_token confirm_token w
    let tail := run_actions mode confirmation_token confirm_token rest step.2
    (step.1 :: tail.1, tail.2)

/-- The per-plan part of `handle_client` after a successful parse and
validation: compute the confirmation token, dispatch every action in order
under the plan's mode, and assemble the response. -/
def dispatch_plan (plan : ActionPlan) (confirm_token : String) (w : World) :
    ActionPlanResult × World :=
  let confirmation_token := plan.confirmation.map (fun c => c.token)
  let out := run_actions plan.mode confirmation_token confirm_token plan.actions w
  ({ request_id := plan.request_id, executed := plan.mode == Mode.execute,
     results := out.1, error := none }, out.2)

/-- Model of `handle_client`: bounded read, then (in priority order) the oversize
response, the idle-with-empty-buffer response, parse, validate, dispatch,
respond, and finally append the audit record.  `decode` stands for
`parse_action_plan(&String::from_utf8_lossy(&input))`, serde's strict JSON
parser, carrying the parse-error display string on failure; the audit
records produced (none on the error paths, which return before the append)
and the response/audit ordering are reported in the outcome. -/
def handle_client (inb : Inbound) (decode : List Nat → Except String ActionPlan)
    (confirm_token : String) (w : World) : ClientOutcome :=
  let recv := recv_input inb.chunks [] false
  let input := recv.1
  if recv.2 then
    { response := write_request_error "unknown" .requestTooLarge
        "request exceeds max bytes",
      audit := [], events := [.respWritten], world := w }
  else if inb.idleEnd && input.isEmpty then
    { response := write_request_error "unknown" .parseFailed "read timed out",
      audit := [], events := [.respWritten], world := w }
  else
    match decode input with
    | .error err =>
      { response := write_request_error "unknown" .parseFailed
          ("parse failed: " ++ err),
        audit := [], events := [.respWritten], world := w }
    | .ok plan =>
      match validate_action_plan plan with
      | .error ve =>
        { response := write_request_error plan.request_id .validationFailed
            ("validation failed: " ++ ve.message),
          audit := [], events := [.respWritten], world := w }
      | .ok _ =>
        let out := dispatch_plan plan confirm_token w
        { response := out.1,
          audit := [{ ts_unix_ms := out.2.now_ms, peer := out.2.peer,
                      request_id := plan.request_id,
                      session_id := plan.session_id,
                      plan := redact_plan (plan_to_json plan),
                      result := redact_result (result_to_json out.1) }],
          events := [.respWritten, .auditWritten], world := out.2 }

/-! ## Shared concrete inputs and helper lemmas -/

def w_init : World :=
  { fs := fun _ => none,
    exec_handler := fun _ =>
      { ok := false, exit_code := none, stdout := "", stdout_truncated := false,
        stderr := "", stderr_truncated := false, error := none },
    spawned := [], now_ms := 0, peer := none }

def shutdown_exec : ExecAction :=
  { argv := ["/bin/shutdown"], cwd := none, env := none, timeout_sec := 5,
    as_root := false, reason := "test", danger := none, recovery := none }

def reboot_exec : ExecAction :=
  { argv := ["/sbin/reboot"], cwd := none, env := none, timeout_sec := 5,
    as_root := false, reason := "test", danger := none, recovery := none }

/-- Peeling one failed-check `if` off a validator chain. -/
theorem ite_error_ok {c : Prop} [Decidable c] {x : Except ValidationError Unit}
    {m : ValidationError} (h : (if c then Except.error m else x) = .ok ()) :
    x = .ok () := by
  by_cases hc : c
  · rw [if_pos hc] at h; exact absurd h (by simp)
  · rwa [if_neg hc] at h

/-- Peeling a `?`-propagated sub-check off a validator chain. -/
theorem and_then_ok {x k : Except ValidationError Unit}
    (h : and_then x k = .ok ()) : k = .ok () := by
  cases x with
  | error e => simp [and_then] at h
  | ok u => simpa [and_then] using h

theorem require_confirmation_ok {plan : ActionPlan} {msg : String}
    (h : require_confirmation plan msg = .ok ()) :
    ∃ c, plan.confirmation = some c ∧ str_trim c.token ≠ "" := by
  unfold require_confirmation at h
  split at h
  next c heq =>
    by_cases ht : str_trim c.token = ""
    · rw [if_pos ht] at h; exact absurd h (by simp)
    · exact ⟨c, heq, ht⟩
  next heq => exact absurd h (by simp)

theorem validate_actions_mem {plan : ActionPlan} {l : List Action} {a : Action}
    (h : validate_actions plan l = .ok ()) (ha : a ∈ l) :
    validate_action plan a = .ok () := by
  induction l with
  | nil => cases ha
  | cons x xs ih =>
    rw [validate_actions] at h
    cases hx : validate_action plan x with
    | error e => rw [hx] at h; simp [and_then] at h
    | ok u =>
      cases u
      rw [hx] at h
      have htail : validate_actions plan xs = .ok () := by
        simpa [and_then] using h
      cases ha with
      | head => exact hx
      | tail _ ha2 => exact ih htail ha2

/-- An action of the `exec`, `read_file` or `write_file` variant with its
`danger` field set (the confirmation-gated kinds in the validator). -/
def danger_gated : Action → Bool
  | .exec e => e.danger.isSome
  | .readFile r => r.danger.isSome
  | .writeFile w => w.danger.isSome
  | _ => false

theorem validate_action_danger_confirmation {plan : ActionPlan} {a : Action}
    (h : validate_action plan a = .ok ()) (hd : danger_gated a = true) :
    ∃ c, plan.confirmation = some c ∧ str_trim c.token ≠ "" := by
  cases a with
  | exec e =>
    unfold validate_action validate_exec at h
    repeat first
      | replace h := ite_error_ok h
      | replace h := and_then_ok h
    replace hd : e.danger.isSome = true := hd
    rw [if_pos hd] at h
    exact require_confirmation_ok h
  | readFile r =>
    unfold validate_action validate_read at h
    repeat first
      | replace h := ite_error_ok h
      | replace h := and_then_ok h
    replace hd : r.danger.isSome = true := hd
    rw [if_pos hd] at h
    exact require_confirmation_ok h
  | writeFile w =>
    unfold validate_action validate_write at h
    repeat first
      | replace h := ite_error_ok h
      | replace h := and_then_ok h
    replace hd : w.danger.isSome = true := hd
    rw [if_pos hd] at h
    exact require_confirmation_ok h
  | serviceControl s => simp [danger_gated] at hd
  | installPackages p => simp [danger_gated] at hd
  | removePackages p => simp [danger_gated] at hd
  | updateSystem u => simp [danger_gated] at hd
  | observe o => simp [danger_gated] at hd
  | cgroupApply c => simp [danger_gated] at hd
  | firmwareOp f => simp [danger_gated] at hd
  | ping => simp [danger_gated] at hd

theorem validate_plan_actions_ok {plan : ActionPlan}
    (h : validate_action_plan plan = .ok ()) :
    validate_actions plan plan.actions = .ok () := by
  unfold validate_action_plan at h
  repeat replace h := ite_error_ok h
  exact h

/-! ## C1 -/

/-- The exact deny-list strings matched by `is_exec_denied`. -/
def exact_deny_list : List String :=
  ["/bin/dd", "dd", "/sbin/mkfs", "/sbin/mkfs.ext4", "mkfs", "mkfs.ext4",
   "/sbin/shutdown", "shutdown", "/sbin/reboot", "reboot"]

/-- C1 (counterexample): the claim extends the deny-list to every
`/bin/`-or-`/sbin/`-prefixed form, naming `/bin/shutdown` explicitly; but
`is_exec_denied` matches exact strings only, so an exec of
`["/bin/shutdown"]` is not denied — without a token its result is
`confirmation_required`, not `policy_denied`, in both modes. -/
theorem C1_deny_prefix_counterexample :
    is_exec_denied shutdown_exec = false ∧
    (execute_action (.exec shutdown_exec) none "i-understand" w_init).1 =
      confirmation_required_exec_result ∧
    (plan_action (.exec shutdown_exec) none "i-understand" w_init).1 =
      confirmation_required_exec_result ∧
    confirmation_required_exec_result ≠ denied_exec_result := by
  refine ⟨rfl, rfl, rfl, ?_⟩
  decide

/-- C1 (amended): an exec action is denied exactly when `argv[0]` is one of
the ten literal strings `dd`, `/bin/dd`, `mkfs`, `mkfs.ext4`, `/sbin/mkfs`,
`/sbin/mkfs.ext4`, `shutdown`, `/sbin/shutdown`, `reboot`, `/sbin/reboot`;
for those, dispatch in either mode returns the exec result with `ok=false`
and error `policy_denied: "exec denied by policy"`, regardless of any
confirmation token, leaving the world untouched. -/
theorem C1_deny_list_exact (e : ExecAction) (p : String)
    (hp : e.argv.head? = some p) (token : Option String) (ct : String)
    (w : World) :
    (is_exec_denied e = true ↔ p ∈ exact_deny_list) ∧
    (p ∈ exact_deny_list →
      execute_action (.exec e) token ct w = (denied_exec_result, w) ∧
      plan_action (.exec e) token ct w = (denied_exec_result, w)) := by
  have hiff : is_exec_denied e = true ↔ p ∈ exact_deny_list := by
    unfold is_exec_denied
    rw [hp]
    simp only [Bool.or_eq_true, beq_iff_eq, exact_deny_list, List.mem_cons,
      List.mem_singleton, List.not_mem_nil, or_false]
    tauto
  refine ⟨hiff, fun hmem => ?_⟩
  have hden : is_exec_denied e = true := hiff.mpr hmem
  constructor
  · simp [execute_action, hden]
  · simp [plan_action, hden]

theorem C1_deny_list_exact_witness :
    reboot_exec.argv.head? = some "/sbin/reboot" ∧
    "/sbin/reboot" ∈ exact_deny_list ∧
    execute_action (.exec reboot_exec) (some "i-understand") "i-understand" w_init =
      (denied_exec_result, w_init) ∧
    plan_action (.exec reboot_exec) (some "i-understand") "i-understand" w_init =
      (denied_exec_result, w_init) := by
  have h := C1_deny_list_exact reboot_exec "/sbin/reboot" rfl
    (some "i-understand") "i-understand" w_init
  have hmem : "/sbin/reboot" ∈ exact_deny_list := by decide
  exact ⟨rfl, hmem, (h.2 hmem).1, (h.2 hmem).2⟩

/-! ## C2 -/

/-- C2: if any exec/read_file/write_file action in a plan sets `danger`,
then a plan that passes `validate_action_plan` carries a confirmation whose
token is non-blank after trimming. -/
theorem C2_danger_requires_confirmation (plan : ActionPlan)
    (h : validate_action_plan plan = .ok ()) (a : Action)
    (ha : a ∈ plan.actions) (hd : danger_gated a = true) :
    ∃ c, plan.confirmation = some c ∧ str_trim c.token ≠ "" := by
  have hacts := validate_plan_actions_ok h
  have hact := validate_actions_mem hacts ha
  exact validate_action_danger_confirmation hact hd

def danger_demo_exec : ExecAction :=
  { argv := ["/bin/echo", "hi"], cwd := none, env := none, timeout_sec := 5,
    as_root := false, reason := "test", danger := some "deletes data",
    recovery := none }

def danger_demo_plan : ActionPlan :=
  { request_id := "r1", session_id := none, version := "0.1", mode := .execute,
    actions := [.exec danger_demo_exec],
    confirmation := some ⟨"i-understand"⟩ }

theorem C2_danger_requires_confirmation_witness :
    ∃ c, danger_demo_plan.confirmation = some c ∧ str_trim c.token ≠ "" := by
  have hval : validate_action_plan danger_demo_plan = .ok () := by rfl
  have hmem : Action.exec danger_demo_exec ∈ danger_demo_plan.actions := by
    simp [danger_demo_plan]
  exact C2_danger_requires_confirmation danger_demo_plan hval
    (.exec danger_demo_exec) hmem (by rfl)

/-! ## C3 -/

theorem plan_action_preserves_world (a : Action) (token : Option String)
    (ct : String) (w : World) : (plan_action a token ct w).2 = w := by
  cases a <;> simp only [plan_action] <;> (repeat' split) <;> rfl

theorem run_actions_plan_only_preserves_world (token : Option String)
    (ct : String) (l : List Action) (w : World) :
    (run_actions .planOnly token ct l w).2 = w := by
  induction l generalizing w with
  | nil => rfl
  | cons a rest ih =>
    rw [run_actions]
    simp only
    rw [plan_action_preserves_world]
    exact ih w

def synth_exec_ok : ActionResult :=
  .exec { ok := true, exit_code := none, stdout := "", stdout_truncated := false,
          stderr := "", stderr_truncated := false, error := none }

def synth_read_ok : ActionResult :=
  .readFile { ok := true, content_base64 := none, truncated := false,
              error := none }

def synth_write_ok : ActionResult :=
  .writeFile { ok := true, artifacts := [], error := none }

/-- C3: in plan_only mode every action leaves the world (filesystem,
spawn ledger) untouched; an exec/read_file/write_file action that passes
the gates yields the synthetic successful result (empty stdout/stderr and
null exit code for exec, null content_base64 for read, empty artifacts for
write); a deny-listed exec still yields `policy_denied` and a gated action
without a valid token still yields `confirmation_required`; and the
response built for a plan_only plan has `executed = false` with no world
change across the whole dispatch. -/
theorem C3_plan_only_no_side_effects :
    (∀ a token ct w, (plan_action a token ct w).2 = w) ∧
    (∀ (e : ExecAction) token ct w, is_exec_denied e = true →
      (plan_action (.exec e) token ct w).1 = denied_exec_result) ∧
    (∀ (e : ExecAction) token ct w, is_exec_denied e = false →
      exec_requires_confirmation e = true →
      confirmation_is_valid token ct = false →
      (plan_action (.exec e) token ct w).1 = confirmation_required_exec_result) ∧
    (∀ (e : ExecAction) token ct w, is_exec_denied e = false →
      (exec_requires_confirmation e = false ∨ confirmation_is_valid token ct = true) →
      (plan_action (.exec e) token ct w).1 = synth_exec_ok) ∧
    (∀ (r : ReadFileAction) token ct w, path_requires_confirmation r.path = true →
      confirmation_is_valid token ct = false →
      (plan_action (.readFile r) token ct w).1 = confirmation_required_read_result) ∧
    (∀ (r : ReadFileAction) token ct w,
      (path_requires_confirmation r.path = false ∨ confirmation_is_valid token ct = true) →
      (plan_action (.readFile r) token ct w).1 = synth_read_ok) ∧
    (∀ (wf : WriteFileAction) token ct w, path_requires_confirmation wf.path = true →
      confirmation_is_valid token ct = false →
      (plan_action (.writeFile wf) token ct w).1 = confirmation_required_write_result) ∧
    (∀ (wf : WriteFileAction) token ct w,
      (path_requires_confirmation wf.path = false ∨ confirmation_is_valid token ct = true) →
      (plan_action (.writeFile wf) token ct w).1 = synth_write_ok) ∧
    (∀ (plan : ActionPlan) ct w, plan.mode = .planOnly →
      (dispatch_plan plan ct w).1.executed = false ∧
      (dispatch_plan plan ct w).2 = w) := by
  refine ⟨plan_action_preserves_world, ?_, ?_, ?_, ?_, ?_, ?_, ?_, ?_⟩
  · intro e token ct w h
    simp [plan_action, h]
  · intro e token ct w h hreq hval
    simp [plan_action, h, hreq, hval]
  · intro e token ct w h hpass
    rcases hpass with hp | hp <;> simp [plan_action, h, hp, synth_exec_ok]
  · intro r token ct w h hval
    simp [plan_action, h, hval]
  · intro r token ct w hpass
    rcases hpass with hp | hp <;> simp [plan_action, hp, synth_read_ok]
  · intro wf token ct w h hval
    simp [plan_action, h, hval]
  · intro wf token ct w hpass
    rcases hpass with hp | hp <;> simp [plan_action, hp, synth_write_ok]
  · intro plan ct w hmode
    constructor
    · simp [dispatch_plan, hmode] <;> rfl
    · simp only [dispatch_plan, hmode]
      exact run_actions_plan_only_preserves_world _ _ _ _

def plan_only_write_action : WriteFileAction :=
  { path := "out.txt", content := "hi", mode := "0644", reason := "test",
    danger := none, recovery := none }

def plan_only_write_plan : ActionPlan :=
  { request_id := "r1", session_id := none, version := "0.1", mode := .planOnly,
    actions := [.writeFile plan_only_write_action], confirmation := none }

theorem C3_plan_only_no_side_effects_witness :
    (plan_action (.writeFile plan_only_write_action) none "i-understand" w_init).2
      = w_init ∧
    (plan_action (.writeFile plan_only_write_action) none "i-understand" w_init).1
      = synth_write_ok ∧
    (dispatch_plan plan_only_write_plan "i-understand" w_init).1.executed = false ∧
    (dispatch_plan plan_only_write_plan "i-understand" w_init).2 = w_init := by
  refine ⟨C3_plan_only_no_side_effects.1 _ _ _ _, ?_, ?_, ?_⟩
  · exact C3_plan_only_no_side_effects.2.2.2.2.2.2.2.1
      plan_only_write_action none "i-understand" w_init (Or.inl (by decide))
  · exact (C3_plan_only_no_side_effects.2.2.2.2.2.2.2.2
      plan_only_write_plan "i-understand" w_init rfl).1
  · exact (C3_plan_only_no_side_effects.2.2.2.2.2.2.2.2
      plan_only_write_plan "i-understand" w_init rfl).2

/-! ## C4 -/

def total_len (chunks : List (List Nat)) : Nat :=
  (chunks.map List.length).sum

/-- Once `exceeded` is set, draining never changes the buffer again. -/
theorem recv_input_drains (rest : List (List Nat)) (input : List Nat) :
    recv_input rest input true = (input, true) := by
  induction rest with
  | nil => rfl
  | cons c cs ih =>
    rw [recv_input]
    by_cases hc : c.isEmpty
    · simp [hc]
    · simp [hc, ih]

theorem recv_input_exceeds :
    ∀ (chunks : List (List Nat)) (input : List Nat),
      (∀ c ∈ chunks, c ≠ ([] : List Nat)) →
      input.length ≤ MAX_REQUEST_BYTES →
      input.length + total_len chunks > MAX_REQUEST_BYTES →
      (recv_input chunks input false).2 = true := by
  intro chunks
  induction chunks with
  | nil =>
    intro input hne hle hbig
    exfalso
    simp [total_len] at hbig
    omega
  | cons c cs ih =>
    intro input hne hle hbig
    have hc : c.isEmpty = false := by
      cases c with
      | nil => exact absurd rfl (hne [] (by simp))
      | cons x xs => rfl
    rw [recv_input, if_neg (by simp [hc]), if_neg (by simp)]
    by_cases hover : input.length + c.length > MAX_REQUEST_BYTES
    · rw [if_pos hover, recv_input_drains]
    · rw [if_neg hover]
      exact ih (input ++ c) (fun x hx => hne x (by simp [hx]))
        (by simp; omega)
        (by simp [total_len] at hbig ⊢; omega)

theorem recv_input_bounded (chunks : List (List Nat)) :
    ∀ (input : List Nat) (ex : Bool), input.length ≤ MAX_REQUEST_BYTES →
      (recv_input chunks input ex).1.length ≤ MAX_REQUEST_BYTES := by
  induction chunks with
  | nil => intro input ex h; exact h
  | cons c cs ih =>
    intro input ex h
    rw [recv_input]
    by_cases hc : c.isEmpty
    · simp [hc]; exact h
    · rw [if_neg (by simpa using hc)]
      cases ex with
      | true => rw [if_pos rfl]; exact ih input true h
      | false =>
        rw [if_neg (by simp)]
        by_cases hover : input.length + c.length > MAX_REQUEST_BYTES
        · rw [if_pos hover]; exact ih input true h
        · rw [if_neg hover]
          exact ih (input ++ c) false (by simp; omega)

/-- C4: for any inbound chunk sequence of non-empty reads totalling more
than 262 144 bytes, the daemon's single response is the
`request_too_large` error with an empty results list and request_id
"unknown" — regardless of how the stream terminated (idle or EOF) and of
what the bytes would parse to; the retained buffer never exceeds the cap,
and once the cap is exceeded further chunks are drained without being
buffered. -/
theorem C4_oversize_request (chunks : List (List Nat))
    (hne : ∀ c ∈ chunks, c ≠ ([] : List Nat))
    (hbig : total_len chunks > MAX_REQUEST_BYTES) (idleEnd : Bool)
    (decode : List Nat → Except String ActionPlan) (ct : String) (w : World) :
    (handle_client ⟨chunks, idleEnd⟩ decode ct w).response =
      { request_id := "unknown", executed := false, results := [],
        error := some ⟨.requestTooLarge, "request exceeds max bytes"⟩ } ∧
    (handle_client ⟨chunks, idleEnd⟩ decode ct w).audit = [] ∧
    (recv_input chunks [] false).1.length ≤ MAX_REQUEST_BYTES ∧
    (∀ (rest : List (List Nat)) (input : List Nat),
      recv_input rest input true = (input, true)) := by
  have h2 : (recv_input chunks [] false).2 = true :=
    recv_input_exceeds chunks [] hne (by simp) (by simpa using hbig)
  refine ⟨?_, ?_, recv_input_bounded chunks [] false (by simp),
    fun rest input => recv_input_drains rest input⟩
  · simp [handle_client, h2, write_request_error]
  · simp [handle_client, h2]

theorem C4_oversize_request_witness :
    (handle_client ⟨[List.replicate 262145 (0 : Nat)], false⟩
        (fun _ => .error "parse error") "i-understand" w_init).response =
      { request_id := "unknown", executed := false, results := [],
        error := some ⟨.requestTooLarge, "request exceeds max bytes"⟩ } := by
  refine (C4_oversize_request [List.replicate 262145 (0 : Nat)] ?_ ?_
    false (fun _ => .error "parse error") "i-understand" w_init).1
  · intro c hc
    rw [List.mem_singleton] at hc
    subst hc
    intro hnil
    have := congrArg List.length hnil
    rw [List.length_replicate] at this
    simp at this
  · show total_len [List.replicate 262145 (0 : Nat)] > MAX_REQUEST_BYTES
    rw [total_len]
    rw [List.map_cons, List.map_nil, List.sum_cons, List.sum_nil,
      List.length_replicate]
    norm_num [MAX_REQUEST_BYTES]

/-! ## C5 -/

theorem b64_val_char : ∀ n < 64, b64_val (b64_char n) = some n := by decide

theorem b64_char_ne_pad : ∀ n < 64, (b64_char n == '=') = false := by decide

theorem b64_roundtrip_aux :
    ∀ (n : Nat) (l : List Nat), l.length ≤ n → (∀ b ∈ l, b < 256) →
      b64_decode (b64_encode l) = some l := by
  intro n
  induction n with
  | zero =>
    intro l hn _
    have : l = [] := List.eq_nil_of_length_eq_zero (by omega)
    subst this
    rfl
  | succ n ih =>
    intro l hn h
    match l with
    | [] => rfl
    | [a] =>
      have ha : a < 256 := h a (by simp)
      simp only [b64_encode, b64_decode]
      rw [b64_val_char (a / 4) (by omega), b64_val_char (a % 4 * 16) (by omega)]
      simp only [List.isEmpty_nil, Option.some.injEq, List.cons.injEq, and_true]
      simp only [beq_self_eq_true, Bool.and_self, if_true, reduceIte,
        Option.some.injEq, List.cons.injEq, and_true]
      omega
    | [a, b] =>
      have ha : a < 256 := h a (by simp)
      have hb : b < 256 := h b (by simp)
      simp only [b64_encode, b64_decode]
      rw [b64_val_char (a / 4) (by omega),
        b64_val_char (a % 4 * 16 + b / 16) (by omega)]
      simp only [b64_char_ne_pad (b % 16 * 4) (by omega), Bool.false_eq_true,
        if_false]
      rw [b64_val_char (b % 16 * 4) (by omega)]
      simp only [beq_self_eq_true, if_true, reduceIte, List.isEmpty_nil,
        Option.some.injEq, List.cons.injEq, and_true]
      omega
    | a :: b :: c :: rest =>
      have ha : a < 256 := h a (by simp)
      have hb : b < 256 := h b (by simp)
      have hc : c < 256 := h c (by simp)
      have hrest := ih rest (by simp at hn ⊢; omega)
        (fun x hx => h x (by simp [hx]))
      simp only [b64_encode, b64_decode]
      rw [b64_val_char (a / 4) (by omega),
        b64_val_char (a % 4 * 16 + b / 16) (by omega)]
      simp only [b64_char_ne_pad (b % 16 * 4 + c / 64) (by omega),
        Bool.false_eq_true, if_false]
      rw [b64_val_char (b % 16 * 4 + c / 64) (by omega)]
      simp only [b64_char_ne_pad (c % 64) (by omega), Bool.false_eq_true,
        if_false]
      rw [b64_val_char (c % 64) (by omega)]
      rw [hrest]
      simp only [Option.some.injEq, List.cons.injEq, and_true]
      refine ⟨by omega, by omega, by omega⟩

theorem b64_roundtrip (l : List Nat) (h : ∀ b ∈ l, b < 256) :
    b64_decode (b64_encode l) = some l :=
  b64_roundtrip_aux l.length l le_rfl h

/-- Splitting a bounded take across one 4096-byte chunk. -/
theorem chunk_take_append (rest : List Nat) (m : Nat) :
    (rest.take 4096).take (min (rest.take 4096).length m) ++
      (rest.drop 4096).take (m - min (rest.take 4096).length m) =
      rest.take m := by
  by_cases hcm : (rest.take 4096).length ≤ m
  · rw [Nat.min_eq_left hcm, List.take_length]
    by_cases hlen : rest.length ≤ 4096
    · have hch : rest.take 4096 = rest := List.take_of_length_le hlen
      have hdr : rest.drop 4096 = [] := by
        apply List.eq_nil_of_length_eq_zero
        rw [List.length_drop]
        omega
      rw [hch, hdr, List.take_nil, List.append_nil,
        List.take_of_length_le]
      rw [hch] at hcm
      omega
    · push_neg at hlen
      have hch : (rest.take 4096).length = 4096 := by
        rw [List.length_take]
        omega
      rw [hch] at hcm ⊢
      have hm : m = 4096 + (m - 4096) := by omega
      conv_rhs => rw [hm]
      rw [List.take_add]
  · push_neg at hcm
    rw [Nat.min_eq_right (le_of_lt hcm), Nat.sub_self, List.take_zero,
      List.append_nil, List.take_take]
    congr 1
    rw [List.length_take] at hcm
    omega

theorem read_loop_take_aux :
    ∀ (n cap : Nat) (rest data : List Nat), rest.length ≤ n →
      data.length ≤ cap →
      read_loop cap rest data = data ++ rest.take (cap - data.length) := by
  intro n
  induction n with
  | zero =>
    intro cap rest data hn _
    have hrest : rest = [] := List.eq_nil_of_length_eq_zero (by omega)
    subst hrest
    rw [read_loop]
    split
    · simp
    · simp
  | succ n ih =>
    intro cap rest data hn hd
    rw [read_loop]
    by_cases h1 : data.length < cap
    · rw [if_pos h1]
      by_cases h2 : (rest.take 4096).isEmpty
      · rw [dif_pos h2]
        have hrest : rest = [] := by
          rcases List.take_eq_nil_iff.mp (List.isEmpty_iff.mp h2) with h | h
          · omega
          · exact h
        simp [hrest]
      · rw [dif_neg h2]
        have hrlen : 1 ≤ rest.length := by
          cases rest with
          | nil => simp at h2
          | cons x xs => simp
        have hklen :
            ((rest.take 4096).take
              (min (rest.take 4096).length (cap - data.length))).length =
              min (rest.take 4096).length (cap - data.length) := by
          rw [List.length_take]
          exact Nat.min_eq_left (Nat.min_le_left _ _)
        have harg : (read_chunk_append cap data (rest.take 4096)).length ≤ cap := by
          rw [read_chunk_append, List.length_append, hklen]
          have := Nat.min_le_right (rest.take 4096).length (cap - data.length)
          omega
        rw [ih cap (rest.drop 4096)
          (read_chunk_append cap data (rest.take 4096))
          (by rw [List.length_drop]; omega) harg]
        rw [read_chunk_append, List.length_append, hklen, List.append_assoc]
        congr 1
        rw [Nat.sub_add_eq]
        exact chunk_take_append rest (cap - data.length)
    · rw [if_neg h1]
      have hz : cap - data.length = 0 := by omega
      simp [hz]

theorem read_loop_take (cap : Nat) (rest data : List Nat)
    (hd : data.length ≤ cap) :
    read_loop cap rest data = data ++ rest.take (cap - data.length) :=
  read_loop_take_aux rest.length cap rest data le_rfl hd

/-- C5: a `read_file` against a readable file of size at least `max_bytes+1`
returns `ok=true`, `truncated=true`, and a `content_base64` that decodes to
exactly the first `max_bytes` bytes; a file of size at most `max_bytes`
returns `truncated=false` with the full content; the read loop's buffer
never exceeds `max_bytes+1` bytes (its final value is so bounded and each
iteration's append preserves the bound). -/
theorem C5_bounded_read (w : World) (r : ReadFileAction) (file : List Nat)
    (hfs : w.fs r.path = some file) (hbytes : ∀ b ∈ file, b < 256) :
    (r.max_bytes + 1 ≤ file.length →
      files_read w r =
        (.readFile
          { ok := true,
            content_base64 := some ⟨b64_encode (file.take r.max_bytes)⟩,
            truncated := true, error := none }, w) ∧
      b64_decode (b64_encode (file.take r.max_bytes)) =
        some (file.take r.max_bytes) ∧
      (file.take r.max_bytes).length = r.max_bytes) ∧
    (file.length ≤ r.max_bytes →
      files_read w r =
        (.readFile
          { ok := true,
            content_base64 := some ⟨b64_encode file⟩, truncated := false,
            error := none }, w) ∧
      b64_decode (b64_encode file) = some file) ∧
    (read_loop (r.max_bytes + 1) file []).length ≤ r.max_bytes + 1 ∧
    (∀ data chunk : List Nat, data.length ≤ r.max_bytes + 1 →
      (read_chunk_append (r.max_bytes + 1) data chunk).length ≤
        r.max_bytes + 1) := by
  have hdata : read_loop (r.max_bytes + 1) file [] = file.take (r.max_bytes + 1) := by
    rw [read_loop_take (r.max_bytes + 1) file [] (by simp)]
    simp
  have hread : files_read w r =
      (.readFile (read_file_data file r.max_bytes), w) := by
    unfold files_read
    rw [hfs]
  refine ⟨?_, ?_, ?_, ?_⟩
  · intro hlong
    have hlen : (read_loop (r.max_bytes + 1) file []).length = r.max_bytes + 1 := by
      rw [hdata, List.length_take]
      omega
    have hslice : (file.take (r.max_bytes + 1)).take r.max_bytes =
        file.take r.max_bytes := by
      rw [List.take_take]
      congr 1
      omega
    have htb : ∀ b ∈ file.take r.max_bytes, b < 256 :=
      fun b hb => hbytes b (List.take_subset _ _ hb)
    refine ⟨?_, b64_roundtrip _ htb, by rw [List.length_take]; omega⟩
    rw [hread]
    unfold read_file_data
    simp only [hdata, hslice]
    have ht : r.max_bytes < (file.take (r.max_bytes + 1)).length := by
      rw [List.length_take]; omega
    have hflt : r.max_bytes < file.length := by omega
    simp [List.length_take, hslice, hflt, ht]
  · intro hshort
    have hfull : file.take (r.max_bytes + 1) = file :=
      List.take_of_length_le (by omega)
    refine ⟨?_, b64_roundtrip _ hbytes⟩
    rw [hread]
    unfold read_file_data
    simp only [hdata, hfull]
    have ht : ¬r.max_bytes < file.length := by omega
    simp [ht]
  · rw [hdata, List.length_take]
    omega
  · intro data chunk hlen
    simp only [read_chunk_append, List.length_append, List.length_take]
    omega

def demo_read_world : World :=
  { w_init with
    fs := fun p => if p = "/tmp/f" then some [65, 65, 65, 65, 65] else none }

def demo_read_action : ReadFileAction :=
  { path := "/tmp/f", max_bytes := 3, reason := "test", danger := none,
    recovery := none }

theorem C5_bounded_read_witness :
    files_read demo_read_world demo_read_action =
      (.readFile
        { ok := true,
          content_base64 := some ⟨b64_encode ([65, 65, 65, 65, 65].take 3)⟩,
          truncated := true, error := none }, demo_read_world) ∧
    b64_decode (b64_encode ([65, 65, 65, 65, 65].take 3)) =
      some ([65, 65, 65, 65, 65].take 3) := by
  have h := C5_bounded_read demo_read_world demo_read_action [65, 65, 65, 65, 65]
    (by rfl) (by decide)
  exact ⟨(h.1 (by decide)).1, (h.1 (by decide)).2.1⟩

/-! ## C6 -/

/-- The effect of audit redaction on a plan, expressed on the typed plan:
`confirmation.token` (when present), each `write_file.content`, and every
`exec.env` value (keys kept) become the literal `"[redacted]"`. -/
def redact_action_typed : Action → Action
  | .writeFile wf => .writeFile { wf with content := "[redacted]" }
  | .exec e =>
    .exec { e with env := e.env.map (fun env =>
      env.map (fun kv => (kv.1, "[redacted]"))) }
  | a => a

def redact_plan_typed (p : ActionPlan) : ActionPlan :=
  { p with
    confirmation := p.confirmation.map (fun _ => ⟨"[redacted]"⟩),
    actions := p.actions.map redact_action_typed }

/-- The effect of audit redaction on a result, expressed on the typed
result: `exec.stdout`/`exec.stderr` and `read_file.content_base64` become
`"[redacted]"` (observe results carry no stdout/stderr fields, so nothing
changes there). -/
def redact_result_action_typed : ActionResult → ActionResult
  | .exec e => .exec { e with stdout := "[redacted]", stderr := "[redacted]" }
  | .readFile r => .readFile { r with content_base64 := some "[redacted]" }
  | a => a

def redact_result_typed (r : ActionPlanResult) : ActionPlanResult :=
  { r with results := r.results.map redact_result_action_typed }

theorem redact_action_commutes (a : Action) :
    redact_action_json (action_to_json a) =
      action_to_json (redact_action_typed a) := by
  cases a with
  | exec e =>
    cases he : e.env with
    | none =>
      simp [action_to_json, redact_action_json, redact_action_typed,
        obj_get, obj_set, env_to_json, he]
    | some env =>
      simp [action_to_json, redact_action_json, redact_action_typed,
        obj_get, obj_set, env_to_json, he, List.map_map, Function.comp,
        json_redacted]
  | writeFile wf =>
    simp [action_to_json, redact_action_json, redact_action_typed,
      obj_get, obj_set, json_redacted]
  | readFile r =>
    simp [action_to_json, redact_action_json, redact_action_typed, obj_get]
  | serviceControl s =>
    simp [action_to_json, redact_action_json, redact_action_typed, obj_get]
  | installPackages p =>
    simp [action_to_json, redact_action_json, redact_action_typed, obj_get]
  | removePackages p =>
    simp [action_to_json, redact_action_json, redact_action_typed, obj_get]
  | updateSystem u =>
    simp [action_to_json, redact_action_json, redact_action_typed, obj_get]
  | observe o =>
    simp [action_to_json, redact_action_json, redact_action_typed, obj_get]
  | cgroupApply c =>
    simp [action_to_json, redact_action_json, redact_action_typed, obj_get]
  | firmwareOp f =>
    simp [action_to_json, redact_action_json, redact_action_typed, obj_get]
  | ping =>
    simp [action_to_json, redact_action_json, redact_action_typed, obj_get]

theorem redact_result_action_commutes (a : ActionResult) :
    redact_result_action_json (action_result_to_json a) =
      action_result_to_json (redact_result_action_typed a) := by
  cases a with
  | exec e =>
    simp [action_result_to_json, redact_result_action_json,
      redact_result_action_typed, obj_get, obj_set, json_redacted]
  | readFile r =>
    simp [action_result_to_json, redact_result_action_json,
      redact_result_action_typed, obj_get, obj_set, json_redacted, opt_str]
  | writeFile wf =>
    simp [action_result_to_json, redact_result_action_json,
      redact_result_action_typed, obj_get]
  | serviceControl s =>
    simp [action_result_to_json, redact_result_action_json,
      redact_result_action_typed, obj_get, argv_result_fields]
  | installPackages p =>
    simp [action_result_to_json, redact_result_action_json,
      redact_result_action_typed, obj_get, argv_result_fields]
  | removePackages p =>
    simp [action_result_to_json, redact_result_action_json,
      redact_result_action_typed, obj_get, argv_result_fields]
  | updateSystem u =>
    simp [action_result_to_json, redact_result_action_json,
      redact_result_action_typed, obj_get, argv_result_fields]
  | observe o =>
    simp [action_result_to_json, redact_result_action_json,
      redact_result_action_typed, obj_get, obj_set, argv_result_fields]
  | cgroupApply c =>
    simp [action_result_to_json, redact_result_action_json,
      redact_result_action_typed, obj_get, argv_result_fields]
  | firmwareOp f =>
    simp [action_result_to_json, redact_result_action_json,
      redact_result_action_typed, obj_get, argv_result_fields]
  | pong p =>
    simp [action_result_to_json, redact_result_action_json,
      redact_result_action_typed, obj_get]

/-- C6: redacting the serialized JSON view of any plan replaces exactly
`confirmation.token` (when present), each `write_file.content`, and every
`exec.env` value (keys retained) with `"[redacted]"`, and redacting any
serialized result replaces exec `stdout`/`stderr` and `read_file`
`content_base64` with `"[redacted]"` (observe results have no
stdout/stderr fields); every other field of the audit line is the
serialization of the untouched original, so the line holds none of those
original values. -/
theorem C6_redaction_commutes :
    (∀ plan : ActionPlan,
      redact_plan (plan_to_json plan) = plan_to_json (redact_plan_typed plan)) ∧
    (∀ res : ActionPlanResult,
      redact_result (result_to_json res) =
        result_to_json (redact_result_typed res)) := by
  constructor
  · intro plan
    cases hc : plan.confirmation with
    | none =>
      simp [plan_to_json, redact_plan, redact_plan_typed, obj_get, obj_set,
        confirmation_to_json, redact_conf_json, hc, List.map_map,
        Function.comp, redact_action_commutes]
    | some c =>
      simp [plan_to_json, redact_plan, redact_plan_typed, obj_get, obj_set,
        confirmation_to_json, redact_conf_json, hc, List.map_map,
        Function.comp, redact_action_commutes, json_redacted]
  · intro res
    simp [result_to_json, redact_result, redact_result_typed, obj_get,
      obj_set, List.map_map, Function.comp, redact_result_action_commutes]

/-! ## C7 -/

def sleep_exec : ExecAction :=
  { argv := ["/bin/sleep", "5"], cwd := none, env := none, timeout_sec := 1,
    as_root := false, reason := "test", danger := none, recovery := none }

/-- C7: actions/exec.rs reports `ok=false` on spawn failure and timeout and
echoes the exit status on normal exit, but it fills the result's `error`
with the plain strings `"exec failed: …"` / `"exec timed out"` instead of
an `ActionError` carrying `exec_failed` / `exec_timed_out` — the file does
not type-check against `ExecResult.error : Option<ActionError>` of
llm-os-common, so the claimed action error codes never appear.  Evaluated
here at a timed-out sleep, a failed spawn, and a normal exit. -/
theorem C7_exec_error_plain_string :
    exec_run (fun _ => .timedOut) sleep_exec =
      { ok := false, exit_code := none, stdout := "", stdout_truncated := false,
        stderr := "", stderr_truncated := false,
        error := some "exec timed out" } ∧
    exec_run (fun _ => .spawnFailed "No such file or directory (os error 2)")
        sleep_exec =
      { ok := false, exit_code := none, stdout := "", stdout_truncated := false,
        stderr := "", stderr_truncated := false,
        error := some "exec failed: No such file or directory (os error 2)" } ∧
    exec_run (fun _ => .exited true (some 0) [] []) sleep_exec =
      { ok := true, exit_code := some 0, stdout := "", stdout_truncated := false,
        stderr := "", stderr_truncated := false, error := none } := by
  exact ⟨rfl, rfl, rfl⟩

/-! ## C8 -/

/-- C8 (counterexample): a connection whose single byte `x` fails to parse
receives a `parse_failed` response, yet no audit record is appended — the
error paths of `handle_client` return before the audit append. -/
theorem C8_no_audit_on_parse_failure :
    (handle_client ⟨[[120]], false⟩
        (fun _ => .error "expected value at line 1 column 1") "i-understand"
        w_init).response.error =
      some ⟨.parseFailed, "parse failed: expected value at line 1 column 1"⟩ ∧
    (handle_client ⟨[[120]], false⟩
        (fun _ => .error "expected value at line 1 column 1") "i-understand"
        w_init).audit = [] := by
  exact ⟨rfl, rfl⟩

/-- C8 (amended): an audit record is appended exactly for connections whose
request reaches dispatch (parse and validation succeeded): such a
connection appends one record, after the response is written; every
error-path response (oversize, idle-timeout, parse or validation failure)
is written with no audit append. -/
theorem C8_audit_on_success_only (inb : Inbound)
    (decode : List Nat → Except String ActionPlan) (ct : String) (w : World) :
    ((handle_client inb decode ct w).response.error = none →
      (handle_client inb decode ct w).audit.length = 1 ∧
      (handle_client inb decode ct w).events = [.respWritten, .auditWritten]) ∧
    ((handle_client inb decode ct w).response.error ≠ none →
      (handle_client inb decode ct w).audit = [] ∧
      (handle_client inb decode ct w).events = [.respWritten]) := by
  unfold handle_client
  by_cases hex : (recv_input inb.chunks [] false).2 = true
  · rw [if_pos hex]
    constructor
    · intro h; simp [write_request_error] at h
    · intro _; exact ⟨rfl, rfl⟩
  · rw [if_neg hex]
    by_cases hidle : (inb.idleEnd && (recv_input inb.chunks [] false).1.isEmpty) = true
    · rw [if_pos hidle]
      constructor
      · intro h; simp [write_request_error] at h
      · intro _; exact ⟨rfl, rfl⟩
    · rw [if_neg hidle]
      cases hdec : decode (recv_input inb.chunks [] false).1 with
      | error err =>
        dsimp only
        constructor
        · intro h; simp [write_request_error] at h
        · intro _; exact ⟨rfl, rfl⟩
      | ok plan =>
        dsimp only
        cases hval : validate_action_plan plan with
        | error ve =>
          dsimp only
          constructor
          · intro h; simp [write_request_error] at h
          · intro _; exact ⟨rfl, rfl⟩
        | ok u =>
          cases u
          dsimp only
          constructor
          · intro _; exact ⟨rfl, rfl⟩
          · intro h
            simp [dispatch_plan] at h

def ping_plan : ActionPlan :=
  { request_id := "r1", session_id := none, version := "0.1", mode := .execute,
    actions := [.ping], confirmation := none }

theorem C8_audit_on_success_only_witness :
    (handle_client ⟨[[112]], false⟩ (fun _ => .ok ping_plan) "i-understand"
        w_init).audit.length = 1 ∧
    (handle_client ⟨[[112]], false⟩ (fun _ => .ok ping_plan) "i-understand"
        w_init).events = [.respWritten, .auditWritten] :=
  (C8_audit_on_success_only ⟨[[112]], false⟩ (fun _ => .ok ping_plan)
    "i-understand" w_init).1 (by rfl)

/-! ## C9 -/

/-- C9: the action sum includes the `firmware_op` variant whose `op` ranges
exactly over inventory, fwupd_update and uefi_var_read, and in plan_only
mode the handler synthesizes `["dmidecode"]`, `["fwupdmgr","update"]`, and
`["cat","/sys/firmware/efi/efivars/<name>"]` respectively (the last given a
non-blank variable name), with no world change. -/
theorem C9_firmware_preview :
    (∀ op : FirmwareOp,
      op = .inventory ∨ op = .fwupdUpdate ∨ op = .uefiVarRead) ∧
    (∀ (fw : FirmwareOpAction) token ct w, fw.op = .inventory →
      plan_action (.firmwareOp fw) token ct w =
        (.firmwareOp { ok := true, argv := ["dmidecode"], error := none }, w)) ∧
    (∀ (fw : FirmwareOpAction) token ct w, fw.op = .fwupdUpdate →
      plan_action (.firmwareOp fw) token ct w =
        (.firmwareOp { ok := true, argv := ["fwupdmgr", "update"],
                       error := none }, w)) ∧
    (∀ (fw : FirmwareOpAction) token ct w (name : String),
      fw.op = .uefiVarRead → fw.uefi_var_name = some name →
      ¬str_trim name = "" →
      plan_action (.firmwareOp fw) token ct w =
        (.firmwareOp
          { ok := true,
            argv := ["cat", "/sys/firmware/efi/efivars/" ++ name],
            error := none }, w)) := by
  refine ⟨?_, ?_, ?_, ?_⟩
  · intro op; cases op
    · exact Or.inl rfl
    · exact Or.inr (Or.inl rfl)
    · exact Or.inr (Or.inr rfl)
  · intro fw token ct w hop
    simp [plan_action, hop]
  · intro fw token ct w hop
    simp [plan_action, hop]
  · intro fw token ct w name hop hname hblank
    simp [plan_action, hop, hname, hblank]

def uefi_demo_action : FirmwareOpAction :=
  { op := .uefiVarRead, uefi_var_name := some "Boot0000", reason := "test",
    danger := none, recovery := none }

theorem C9_firmware_preview_witness :
    plan_action (.firmwareOp { uefi_demo_action with op := .inventory }) none
        "i-understand" w_init =
      (.firmwareOp { ok := true, argv := ["dmidecode"], error := none },
        w_init) ∧
    plan_action (.firmwareOp { uefi_demo_action with op := .fwupdUpdate }) none
        "i-understand" w_init =
      (.firmwareOp { ok := true, argv := ["fwupdmgr", "update"], error := none },
        w_init) ∧
    plan_action (.firmwareOp uefi_demo_action) none "i-understand" w_init =
      (.firmwareOp
        { ok := true, argv := ["cat", "/sys/firmware/efi/efivars/Boot0000"],
          error := none }, w_init) := by
  refine ⟨?_, ?_, ?_⟩
  · exact C9_firmware_preview.2.1 _ none "i-understand" w_init rfl
  · exact C9_firmware_preview.2.2.1 _ none "i-understand" w_init rfl
  · exact C9_firmware_preview.2.2.2 uefi_demo_action none "i-understand" w_init
      "Boot0000" rfl rfl (by decide)

/-! ## C10 -/

/-- The `/`-separated components of a path, as strings. -/
def path_components (path : String) : List String :=
  (split_on_slash path.data).map (fun cs => ⟨cs⟩)

/-- C10: a read/write path requires confirmation exactly when it starts
with `/` but not with the literal prefix `/tmp/`, or some `/`-separated
component equals `..`; hence a relative path with no `..` component never
requires confirmation, while `/tmp` (no trailing slash) and `/tmpfoo` do;
and in execute mode with no token, the read_file/write_file dispatch
returns `confirmation_required` precisely for such paths and otherwise
proceeds to the file handler. -/
theorem C10_path_confirmation_predicate (path : String) :
    (path_requires_confirmation path = true ↔
      ((str_starts_with path "/" && !str_starts_with path "/tmp/") = true ∨
        ".." ∈ path_components path)) ∧
    (str_starts_with path "/" = false → ".." ∉ path_components path →
      path_requires_confirmation path = false) ∧
    (path_requires_confirmation "/tmp" = true ∧
      path_requires_confirmation "/tmpfoo" = true) ∧
    (∀ (r : ReadFileAction) ct w,
      (path_requires_confirmation r.path = true →
        execute_action (.readFile r) none ct w =
          (confirmation_required_read_result, w)) ∧
      (path_requires_confirmation r.path = false →
        execute_action (.readFile r) none ct w = files_read w r)) ∧
    (∀ (wf : WriteFileAction) ct w,
      (path_requires_confirmation wf.path = true →
        execute_action (.writeFile wf) none ct w =
          (confirmation_required_write_result, w)) ∧
      (path_requires_confirmation wf.path = false →
        execute_action (.writeFile wf) none ct w = files_write w wf)) := by
  have hpar : ∀ q : String, has_parent_dir q = true ↔ ".." ∈ path_components q := by
    intro q
    unfold has_parent_dir path_components
    rw [List.any_eq_true]
    constructor
    · rintro ⟨seg, hseg, hbeq⟩
      rw [beq_iff_eq] at hbeq
      exact List.mem_map.mpr ⟨seg, hseg, by rw [hbeq]⟩
    · intro hmem
      rcases List.mem_map.mp hmem with ⟨seg, hseg, hmk⟩
      refine ⟨seg, hseg, ?_⟩
      rw [beq_iff_eq]
      have := congrArg String.data hmk
      simpa using this
  have hiff : path_requires_confirmation path = true ↔
      ((str_starts_with path "/" && !str_starts_with path "/tmp/") = true ∨
        ".." ∈ path_components path) := by
    unfold path_requires_confirmation
    rw [Bool.or_eq_true, hpar]
  refine ⟨hiff, ?_, ⟨by decide, by decide⟩, ?_, ?_⟩
  · intro habs hdot
    cases hb : path_requires_confirmation path with
    | false => rfl
    | true =>
      rcases hiff.mp hb with h | h
      · rw [habs] at h
        simp at h
      · exact absurd h hdot
  · intro r ct w
    constructor
    · intro h
      simp [execute_action, h, confirmation_is_valid]
    · intro h
      simp [execute_action, h]
  · intro wf ct w
    constructor
    · intro h
      simp [execute_action, h, confirmation_is_valid]
    · intro h
      simp [execute_action, h]

def etc_read_action : ReadFileAction :=
  { path := "/etc/passwd", max_bytes := 256, reason := "test", danger := none,
    recovery := none }

theorem C10_path_confirmation_predicate_witness :
    path_requires_confirmation "data/x.txt" = false ∧
    execute_action (.readFile etc_read_action) none "i-understand" w_init =
      (confirmation_required_read_result, w_init) := by
  constructor
  · exact (C10_path_confirmation_predicate "data/x.txt").2.1 (by decide)
      (by decide)
  · exact ((C10_path_confirmation_predicate "/etc/passwd").2.2.2.1
      etc_read_action "i-understand" w_init).1 (by decide)

end LlmOsd
